import Mathlib

/-!
# Scandit command-line samples: camera negotiation, capture loop, frame sequences

A shallow embedding of the three scanner samples

* `samples/CommandLineBarcodeScannerCameraSample.c`
* `samples/CommandLineMatrixScanCameraSample.c`
* `samples/CommandLineBarcodeScannerImageProcessingSample.c`

Every `main` is a function from the answers of its environment (SDK return
values, camera frames, the stop flag as read at each loop test) to the list of
SDK calls it makes, in order, together with the way the run ends.  Unsigned
32-bit values are natural numbers; the only arithmetic on them is comparison
and `%`, which do not wrap.
-/

namespace Scandit

/-! ## Data model -/

/-- The SDK size type `ScSize` (two `uint32_t` fields). -/
structure ScSize where
  width : Nat
  height : Nat
  deriving DecidableEq, Repr

/-- The SDK type `ScStepwiseResolution`, with the six fields the samples read. -/
structure ScStepwiseResolution where
  min_width : Nat
  max_width : Nat
  step_width : Nat
  min_height : Nat
  max_height : Nat
  step_height : Nat
  deriving DecidableEq, Repr

/-- The values of `ScCameraMode` as the `switch` in `main` distinguishes them:
the two named cases and everything that reaches `default`. -/
inductive ScCameraMode where
  | SC_CAMERA_MODE_DISCRETE
  | SC_CAMERA_MODE_STEPWISE
  | SC_CAMERA_MODE_UNKNOWN
  deriving DecidableEq, Repr

/-- The status of a processed frame, as far as the samples look at it: they only
compare it with `SC_RECOGNITION_CONTEXT_STATUS_SUCCESS`; any other value keeps
its numeric code. -/
inductive ScContextStatusFlag where
  | SC_RECOGNITION_CONTEXT_STATUS_SUCCESS
  | failure (code : Nat)
  deriving DecidableEq, Repr

/-- `DEFAULT_RESOLUTION_WIDTH` of both camera samples. -/
def DEFAULT_RESOLUTION_WIDTH : Nat := 1280

/-- `DEFAULT_RESOLUTION_HEIGHT` of both camera samples. -/
def DEFAULT_RESOLUTION_HEIGHT : Nat := 720

/-- The local constant `resolutions_size` of both camera samples. -/
def resolutions_size : Nat := 30

/-- Conversion of an `int` to `uint32_t`, as in `resolution_width = atoi(argv[2])`. -/
def toUInt32 (i : Int) : Nat := (i % 4294967296).toNat

/-! ## Resolution negotiation (the `switch (resm)` block of both camera samples) -/

/-- The `for` loop of the discrete case: it walks the reported entries in order
and sets `supported` at the first one whose width and height both equal the
request, then breaks. The result is the final value of `supported`. -/
def discreteLoop (resolution_width resolution_height : Nat) : List ScSize → Bool
  | [] => false
  | r :: rest =>
    if r.width = resolution_width ∧ r.height = resolution_height then true
    else discreteLoop resolution_width resolution_height rest

/-- The discrete case after `sc_camera_query_supported_resolutions`: `none` is
the `return -1` taken when `resolutions_found` is zero, `some b` is the value
of `supported` after the loop. The list holds the entries the query wrote, so
`resolutions_found` is its length. -/
def discreteBranch (resolutions : List ScSize)
    (resolution_width resolution_height : Nat) : Option Bool :=
  if resolutions.length = 0 then none
  else some (discreteLoop resolution_width resolution_height resolutions)

/-- What evaluating the `if` condition of the stepwise case does: the `%`
operations it evaluates, in order, as (left operand, right operand), and its
value. The value is `none` when a `%` with a zero right operand is evaluated,
which C leaves undefined. -/
structure CondEval where
  mods : List (Nat × Nat)
  value : Option Bool
  deriving DecidableEq, Repr

/-- The condition of the stepwise case, evaluated left to right with the
short-circuit rule of `&&`:
`min_width <= w && w <= max_width && min_height <= h && h <= max_height &&
 w % step_width == 0 && h % step_height == 0`. -/
def stepwiseCondition (swres : ScStepwiseResolution)
    (resolution_width resolution_height : Nat) : CondEval :=
  if ¬ swres.min_width ≤ resolution_width then ⟨[], some false⟩
  else if ¬ resolution_width ≤ swres.max_width then ⟨[], some false⟩
  else if ¬ swres.min_height ≤ resolution_height then ⟨[], some false⟩
  else if ¬ resolution_height ≤ swres.max_height then ⟨[], some false⟩
  else if swres.step_width = 0 then ⟨[(resolution_width, 0)], none⟩
  else if resolution_width % swres.step_width ≠ 0 then
    ⟨[(resolution_width, swres.step_width)], some false⟩
  else if swres.step_height = 0 then
    ⟨[(resolution_width, swres.step_width), (resolution_height, 0)], none⟩
  else
    ⟨[(resolution_width, swres.step_width), (resolution_height, swres.step_height)],
      some (resolution_height % swres.step_height == 0)⟩

/-- The stepwise rule in the words of the specification: the request lies in
both ranges and its distance from the minimum is a multiple of the step, on
both axes. -/
def specStepwiseSupported (swres : ScStepwiseResolution) (width height : Nat) : Prop :=
  swres.min_width ≤ width ∧ width ≤ swres.max_width ∧
  swres.min_height ≤ height ∧ height ≤ swres.max_height ∧
  (width - swres.min_width) % swres.step_width = 0 ∧
  (height - swres.min_height) % swres.step_height = 0

instance (swres : ScStepwiseResolution) (width height : Nat) :
    Decidable (specStepwiseSupported swres width height) := by
  unfold specStepwiseSupported; infer_instance

/-! ## SDK calls and runs -/

/-- The symbologies the samples enable. -/
inductive ScSymbology where
  | SC_SYMBOLOGY_EAN13
  | SC_SYMBOLOGY_UPCA
  | SC_SYMBOLOGY_QR
  | SC_SYMBOLOGY_CODE128
  deriving DecidableEq, Repr

/-- The values of `ScCodeLocationConstraint` the samples pass. -/
inductive ScCodeLocationConstraint where
  | SC_CODE_LOCATION_RESTRICT
  | SC_CODE_LOCATION_HINT
  | SC_CODE_LOCATION_IGNORE
  deriving DecidableEq, Repr

/-- The settings presets the samples pass. -/
inductive ScPreset where
  | SC_PRESET_NONE
  | SC_PRESET_ENABLE_SINGLE_FRAME_MODE
  deriving DecidableEq, Repr

/-- The code direction hints the samples pass. -/
inductive ScCodeDirection where
  | SC_CODE_DIRECTION_LEFT_TO_RIGHT
  | SC_CODE_DIRECTION_NONE
  deriving DecidableEq, Repr

/-- The lines the samples print, one constructor per `printf` in the source,
with the values that the claims look at. -/
inductive Msg where
  | could_not_set_up_signal_handler
  | no_camera_available
  | discrete_header
  | discrete_entry (resolution : ScSize)
  | discrete_query_error
  | stepwise_query_error
  | stepwise_header
  | stepwise_x (min step max : Nat)
  | stepwise_y (min step max : Nat)
  | could_not_get_mode
  | not_supported (width height : Nat)
  | setting_resolution_failed
  | start_camera_failed
  | could_not_initialize_context
  | frame_access_failed
  | processing_frame_failed (status : ScContextStatusFlag)
  | barcode_found
  | usage
  | sdk_version
  | could_not_initialize_image_description
  | could_not_initialize_settings
  | could_not_initialize_scanner
  | scanner_setup_failed
  | failed_to_load_image (file_name : List Char)
  | no_barcodes_found
  | barcode_line
  deriving Repr

set_option maxHeartbeats 4000000 in
/-- Equality of printed lines is decidable: two lines are equal exactly when
they come from the same `printf` with equal values. -/
instance : DecidableEq Msg := fun a b => by
  cases a <;> cases b <;>
    first
    | exact isFalse (fun h => Msg.noConfusion h)
    | exact isTrue rfl
    | (rename_i x1 x2 x3 y1 y2 y3
       exact decidable_of_iff (x1 = y1 ∧ x2 = y2 ∧ x3 = y3)
         ⟨fun h => by rw [h.1, h.2.1, h.2.2],
          fun h => by injection h with h1 h2 h3; exact ⟨h1, h2, h3⟩⟩)
    | (rename_i x1 x2 y1 y2
       exact decidable_of_iff (x1 = y1 ∧ x2 = y2)
         ⟨fun h => by rw [h.1, h.2], fun h => by injection h with h1 h2; exact ⟨h1, h2⟩⟩)
    | (rename_i x y
       exact decidable_of_iff (x = y) ⟨fun h => by rw [h], fun h => by injection h⟩)

/-- One call a sample makes into libc or the SDK, with the arguments and
results the claims look at. A frame buffer is named by its address. -/
inductive Call where
  | signal
  | printf (m : Msg)
  | sc_camera_new
  | sc_camera_new_from_path (buffer_count : Nat)
  | sc_camera_get_resolution_mode
  | sc_camera_query_supported_resolutions (capacity : Nat)
  | sc_camera_query_supported_framerates (resolution : ScSize)
  | sc_framerate_get_fps
  | sc_camera_query_supported_resolutions_stepwise
  | sc_camera_request_resolution (width height : Nat)
  | sc_camera_start_stream
  | sc_camera_get_frame (image_data : Option Nat)
  | sc_camera_enqueue_frame_data (image_data : Nat)
  | sc_camera_release
  | sc_recognition_context_new
  | sc_recognition_context_start_new_frame_sequence
  | sc_recognition_context_process_frame (image_data : Nat)
  | sc_context_status_flag_get_message
  | sc_recognition_context_end_frame_sequence
  | sc_recognition_context_release
  | sc_barcode_scanner_settings_new_with_preset (preset : ScPreset)
  | sc_barcode_scanner_settings_set_symbology_enabled (symbology : ScSymbology)
  | sc_barcode_scanner_settings_set_max_number_of_codes_per_frame (n : Nat)
  | sc_barcode_scanner_settings_set_code_location_area_1d
  | sc_barcode_scanner_settings_set_code_location_constraint_1d (c : ScCodeLocationConstraint)
  | sc_barcode_scanner_settings_set_code_location_constraint_2d (c : ScCodeLocationConstraint)
  | sc_barcode_scanner_settings_set_code_duplicate_filter (ms : Nat)
  | sc_barcode_scanner_settings_set_code_caching_duration (ms : Nat)
  | sc_barcode_scanner_settings_set_focus_mode
  | sc_barcode_scanner_settings_set_code_direction_hint (d : ScCodeDirection)
  | sc_barcode_scanner_settings_get_symbology_settings (symbology : ScSymbology)
  | sc_symbology_settings_set_active_symbol_counts (sym_count : List (Option Nat)) (n : Nat)
  | sc_barcode_scanner_settings_release
  | sc_barcode_scanner_new_with_settings
  | sc_barcode_scanner_wait_for_setup_completed
  | sc_barcode_scanner_get_session
  | sc_barcode_scanner_session_get_newly_recognized_codes
  | sc_barcode_array_get_size
  | sc_barcode_array_get_item_at (i : Nat)
  | sc_barcode_get_data
  | sc_barcode_get_symbology
  | sc_symbology_to_string
  | sc_barcode_array_release
  | sc_barcode_scanner_release
  | sc_object_tracker_new
  | sc_object_tracker_release
  | sc_image_description_new
  | sc_image_description_set_layout
  | sc_image_description_set_width
  | sc_image_description_set_height
  | sc_image_description_set_first_plane_row_bytes
  | sc_image_description_set_memory_size
  | sc_image_description_release
  | load_image (file_name : List Char)
  | free_image_data
  deriving Repr

set_option maxHeartbeats 4000000 in
/-- Equality of calls is decidable: two calls are equal exactly when they are
calls of the same function with equal arguments and results. -/
instance : DecidableEq Call := fun a b => by
  cases a <;> cases b <;>
    first
    | exact isFalse (fun h => Call.noConfusion h)
    | exact isTrue rfl
    | (rename_i x1 x2 y1 y2
       exact decidable_of_iff (x1 = y1 ∧ x2 = y2)
         ⟨fun h => by rw [h.1, h.2], fun h => by injection h with h1 h2; exact ⟨h1, h2⟩⟩)
    | (rename_i x y
       exact decidable_of_iff (x = y) ⟨fun h => by rw [h], fun h => by injection h⟩)

/-- How a run ends: `main` returned a code, or the recorded environment answers
ran out while the capture loop was still running, or a `%` by zero was
evaluated (undefined in C; the run is followed no further). -/
inductive Outcome where
  | exited (code : Int)
  | running
  | undefined
  deriving DecidableEq, Repr

/-- A run: the calls made, in order, and how it ends. -/
structure Run where
  trace : List Call
  outcome : Outcome
  deriving DecidableEq, Repr

/-- Sequencing: the calls `pre` happen, then the run `r`. -/
def Run.after (pre : List Call) (r : Run) : Run :=
  ⟨pre ++ r.trace, r.outcome⟩

/-- What the environment answers during one turn of the capture loop:
`process_frames` as read by the loop test (the SIGINT handler clears it),
the pointer returned by `sc_camera_get_frame` (`none` is `NULL`), the status
of `sc_recognition_context_process_frame`, and the size of the array of newly
recognized codes. -/
structure FrameInput where
  process_frames : Bool
  image_data : Option Nat
  status : ScContextStatusFlag
  code_count : Nat
  deriving DecidableEq, Repr

/-- The answers of the environment to one run of a camera sample.
`listing` is what `print_all_discrete_resolutions` obtains (each resolution with
the number of its frame rates), `resolutions` the entries written by the query
in `main`, `atoi_argv2`/`atoi_argv3` the values of `atoi(argv[2])`,
`atoi(argv[3])`, and each Boolean tells whether the call of that name
succeeded. -/
structure CameraEnv where
  signal_ok : Bool
  argc : Nat
  atoi_argv2 : Int
  atoi_argv3 : Int
  camera_ok : Bool
  resm : ScCameraMode
  listing : List (ScSize × Nat)
  resolutions : List ScSize
  stepwise_ok : Bool
  swres : ScStepwiseResolution
  request_ok : Bool
  stream_ok : Bool
  context_ok : Bool
  settings_ok : Bool
  scanner_ok : Bool
  frames : List FrameInput

/-! ## The camera samples up to the start of streaming

Lines 61-170 of `CommandLineBarcodeScannerCameraSample.c` and lines 99-208 of
`CommandLineMatrixScanCameraSample.c` are the same text; they are embedded
once. -/

/-- The function `print_all_discrete_resolutions`: one query with room for 20
entries, then for each entry a frame-rate query and one printed line per
frame rate. -/
def print_all_discrete_resolutions (listing : List (ScSize × Nat)) : List Call :=
  [Call.printf Msg.discrete_header, Call.sc_camera_query_supported_resolutions 20] ++
  (listing.map (fun e =>
    Call.sc_camera_query_supported_framerates e.1 ::
      (List.replicate e.2
        [Call.sc_framerate_get_fps, Call.printf (Msg.discrete_entry e.1)]).flatten)).flatten

/-- The variable `resolution_width` after the command line is read:
the default, replaced by `atoi(argv[2])` when `argc == 4`. -/
def resolution_width (env : CameraEnv) : Nat :=
  if env.argc = 4 then toUInt32 env.atoi_argv2 else DEFAULT_RESOLUTION_WIDTH

/-- The variable `resolution_height` after the command line is read:
the default, replaced by `atoi(argv[3])` when `argc == 4`. -/
def resolution_height (env : CameraEnv) : Nat :=
  if env.argc = 4 then toUInt32 env.atoi_argv3 else DEFAULT_RESOLUTION_HEIGHT

/-- How the `switch (resm)` block ends: it falls through with a value of
`supported`, or `main` returns from inside it, or a `%` by zero is evaluated. -/
inductive SwitchEnd where
  | fell_through (supported : Bool)
  | returned (code : Int)
  | undefined
  deriving DecidableEq, Repr

/-- The `switch (resm)` block: the calls it makes and how it ends. -/
def resolutionSwitch (env : CameraEnv) : List Call × SwitchEnd :=
  match env.resm with
  | ScCameraMode.SC_CAMERA_MODE_DISCRETE =>
    let t := print_all_discrete_resolutions env.listing ++
      [Call.sc_camera_query_supported_resolutions resolutions_size]
    match discreteBranch env.resolutions (resolution_width env) (resolution_height env) with
    | none => (t ++ [Call.printf Msg.discrete_query_error], SwitchEnd.returned (-1))
    | some supported => (t, SwitchEnd.fell_through supported)
  | ScCameraMode.SC_CAMERA_MODE_STEPWISE =>
    if env.stepwise_ok then
      let t := [Call.sc_camera_query_supported_resolutions_stepwise,
        Call.printf Msg.stepwise_header,
        Call.printf (Msg.stepwise_x env.swres.min_width env.swres.step_width env.swres.max_width),
        Call.printf (Msg.stepwise_y env.swres.min_height env.swres.step_height
          env.swres.max_height)]
      match (stepwiseCondition env.swres (resolution_width env) (resolution_height env)).value with
      | none => (t, SwitchEnd.undefined)
      | some supported => (t, SwitchEnd.fell_through supported)
    else
      ([Call.sc_camera_query_supported_resolutions_stepwise,
        Call.printf Msg.stepwise_query_error], SwitchEnd.returned (-1))
  | ScCameraMode.SC_CAMERA_MODE_UNKNOWN =>
    ([Call.printf Msg.could_not_get_mode], SwitchEnd.returned (-1))

/-- The calls of `main` before the `switch`: the signal handler and the camera
object, created from `argv[1]` with 4 image buffers when `argc > 1`. -/
def openCamera (env : CameraEnv) : List Call :=
  [Call.signal, if env.argc > 1 then Call.sc_camera_new_from_path 4 else Call.sc_camera_new]

/-- The part of `main` after the `switch`, up to `sc_camera_start_stream`:
the test of `supported`, the request of the resolution and the start of the
stream; `rest` is the run of everything after it. -/
def applyResolution (env : CameraEnv) (supported : Bool) (rest : Run) : Run :=
  if supported then
    if env.request_ok then
      if env.stream_ok then
        Run.after [Call.sc_camera_request_resolution (resolution_width env) (resolution_height env),
          Call.sc_camera_start_stream] rest
      else
        ⟨[Call.sc_camera_request_resolution (resolution_width env) (resolution_height env),
          Call.sc_camera_start_stream, Call.printf Msg.start_camera_failed,
          Call.sc_camera_release], Outcome.exited (-1)⟩
    else
      ⟨[Call.sc_camera_request_resolution (resolution_width env) (resolution_height env),
        Call.printf Msg.setting_resolution_failed, Call.sc_camera_release], Outcome.exited (-1)⟩
  else
    ⟨[Call.printf (Msg.not_supported (resolution_width env) (resolution_height env)),
      Call.sc_camera_release], Outcome.exited (-1)⟩

/-- The start of `main` in both camera samples, up to and including
`sc_camera_start_stream`; `rest` is the run of everything after it. -/
def cameraStartup (env : CameraEnv) (rest : Run) : Run :=
  if env.signal_ok then
    if env.camera_ok then
      Run.after (openCamera env ++ [Call.sc_camera_get_resolution_mode])
        (match resolutionSwitch env with
         | (t, SwitchEnd.returned code) => ⟨t, Outcome.exited code⟩
         | (t, SwitchEnd.undefined) => ⟨t, Outcome.undefined⟩
         | (t, SwitchEnd.fell_through supported) =>
           Run.after t (applyResolution env supported rest))
    else
      ⟨openCamera env ++ [Call.printf Msg.no_camera_available], Outcome.exited (-1)⟩
  else
    ⟨[Call.signal, Call.printf Msg.could_not_set_up_signal_handler], Outcome.exited (-1)⟩

/-- The value of `supported` after the `switch`, when the run gets that far:
`none` when `main` has returned before or inside the `switch`, or when the
condition of the stepwise case is undefined. -/
def supportedAfterSwitch (env : CameraEnv) : Option Bool :=
  if env.signal_ok ∧ env.camera_ok then
    match (resolutionSwitch env).2 with
    | SwitchEnd.fell_through supported => some supported
    | _ => none
  else none

/-- The calls in which `main` lets go of what it holds after the capture loop
of `CommandLineBarcodeScannerCameraSample.c` (lines 277-284). -/
def BarcodeScannerCameraSample.teardown : List Call :=
  [Call.sc_recognition_context_end_frame_sequence, Call.sc_image_description_release,
   Call.sc_barcode_scanner_release, Call.sc_recognition_context_release,
   Call.sc_camera_release]

/-- The `while (process_frames)` loop of `CommandLineBarcodeScannerCameraSample.c`
(lines 246-275), run on the recorded answers. The Boolean tells whether the loop
was left; it is `false` when the answers ran out with the loop still going. -/
def BarcodeScannerCameraSample.captureLoop : List FrameInput → List Call × Bool
  | [] => ([], false)
  | f :: rest =>
    if f.process_frames then
      match f.image_data with
      | none => ([Call.sc_camera_get_frame none, Call.printf Msg.frame_access_failed], true)
      | some image_data =>
        let body :=
          [Call.sc_camera_get_frame (some image_data),
           Call.sc_recognition_context_process_frame image_data] ++
          (if f.status = ScContextStatusFlag.SC_RECOGNITION_CONTEXT_STATUS_SUCCESS then []
           else [Call.sc_context_status_flag_get_message,
                 Call.printf (Msg.processing_frame_failed f.status)]) ++
          [Call.sc_barcode_scanner_session_get_newly_recognized_codes,
           Call.sc_barcode_array_get_size] ++
          ((List.range f.code_count).map (fun i =>
            [Call.sc_barcode_array_get_item_at i, Call.sc_barcode_get_data,
             Call.printf Msg.barcode_found])).flatten ++
          [Call.sc_camera_enqueue_frame_data image_data, Call.sc_barcode_array_release]
        let r := BarcodeScannerCameraSample.captureLoop rest
        (body ++ r.1, r.2)
    else ([], true)

/-- The calls that configure the scanner settings in
`CommandLineBarcodeScannerCameraSample.c` (lines 193-224, with
`LOW_END_DEVICE_CONFIGURATION` defined as 0). -/
def BarcodeScannerCameraSample.configure : List Call :=
  [Call.sc_barcode_scanner_settings_set_symbology_enabled ScSymbology.SC_SYMBOLOGY_EAN13,
   Call.sc_barcode_scanner_settings_set_symbology_enabled ScSymbology.SC_SYMBOLOGY_UPCA,
   Call.sc_barcode_scanner_settings_set_symbology_enabled ScSymbology.SC_SYMBOLOGY_QR,
   Call.sc_barcode_scanner_settings_set_max_number_of_codes_per_frame 1,
   Call.sc_barcode_scanner_settings_set_code_location_area_1d,
   Call.sc_barcode_scanner_settings_set_code_location_constraint_1d
     ScCodeLocationConstraint.SC_CODE_LOCATION_HINT,
   Call.sc_barcode_scanner_settings_set_code_location_constraint_2d
     ScCodeLocationConstraint.SC_CODE_LOCATION_HINT,
   Call.sc_barcode_scanner_settings_set_code_duplicate_filter 0,
   Call.sc_barcode_scanner_settings_set_code_caching_duration 0,
   Call.sc_barcode_scanner_settings_set_focus_mode,
   Call.sc_barcode_scanner_settings_set_code_direction_hint
     ScCodeDirection.SC_CODE_DIRECTION_LEFT_TO_RIGHT]

/-- The calls of `CommandLineBarcodeScannerCameraSample.c` between the start of
the stream and the capture loop when every object is created (lines 172-245). -/
def BarcodeScannerCameraSample.setup : List Call :=
  [Call.sc_recognition_context_new,
    Call.sc_barcode_scanner_settings_new_with_preset ScPreset.SC_PRESET_NONE] ++
  BarcodeScannerCameraSample.configure ++
  [Call.sc_barcode_scanner_new_with_settings, Call.sc_barcode_scanner_settings_release,
   Call.sc_barcode_scanner_get_session,
   Call.sc_recognition_context_start_new_frame_sequence,
   Call.sc_image_description_new]

/-- The part of `main` of `CommandLineBarcodeScannerCameraSample.c` after the
stream is started (lines 172-285): context, settings, scanner, the frame
sequence around the capture loop, and the release of everything. Falling off
the end of `main` is exit code 0. -/
def BarcodeScannerCameraSample.scan (env : CameraEnv) : Run :=
  if env.context_ok then
    if env.settings_ok then
      if env.scanner_ok then
        let r := BarcodeScannerCameraSample.captureLoop env.frames
        if r.2 then
          ⟨BarcodeScannerCameraSample.setup ++ r.1 ++ BarcodeScannerCameraSample.teardown,
            Outcome.exited 0⟩
        else ⟨BarcodeScannerCameraSample.setup ++ r.1, Outcome.running⟩
      else
        ⟨[Call.sc_recognition_context_new,
            Call.sc_barcode_scanner_settings_new_with_preset ScPreset.SC_PRESET_NONE] ++
          BarcodeScannerCameraSample.configure ++
          [Call.sc_barcode_scanner_new_with_settings, Call.sc_barcode_scanner_settings_release,
           Call.sc_recognition_context_release, Call.sc_camera_release], Outcome.exited (-1)⟩
    else
      ⟨[Call.sc_recognition_context_new,
        Call.sc_barcode_scanner_settings_new_with_preset ScPreset.SC_PRESET_NONE,
        Call.sc_recognition_context_release, Call.sc_camera_release], Outcome.exited (-1)⟩
  else
    ⟨[Call.sc_recognition_context_new, Call.printf Msg.could_not_initialize_context,
      Call.sc_camera_release], Outcome.exited (-1)⟩

/-- The function `main` of `CommandLineBarcodeScannerCameraSample.c`. -/
def BarcodeScannerCameraSample.main (env : CameraEnv) : Run :=
  cameraStartup env (BarcodeScannerCameraSample.scan env)

/-! ## The MatrixScan camera sample after the start of streaming -/

/-- The calls in which `main` lets go of what it holds after the capture loop
of `CommandLineMatrixScanCameraSample.c` (lines 305-313). -/
def MatrixScanCameraSample.teardown : List Call :=
  [Call.sc_recognition_context_end_frame_sequence, Call.sc_image_description_release,
   Call.sc_object_tracker_release, Call.sc_barcode_scanner_release,
   Call.sc_recognition_context_release, Call.sc_camera_release]

/-- The `while (process_frames)` loop of `CommandLineMatrixScanCameraSample.c`
(lines 286-303), run on the recorded answers. The Boolean tells whether the loop
was left; it is `false` when the answers ran out with the loop still going. -/
def MatrixScanCameraSample.captureLoop : List FrameInput → List Call × Bool
  | [] => ([], false)
  | f :: rest =>
    if f.process_frames then
      match f.image_data with
      | none => ([Call.sc_camera_get_frame none, Call.printf Msg.frame_access_failed], true)
      | some image_data =>
        let body :=
          [Call.sc_camera_get_frame (some image_data),
           Call.sc_recognition_context_process_frame image_data] ++
          (if f.status = ScContextStatusFlag.SC_RECOGNITION_CONTEXT_STATUS_SUCCESS then []
           else [Call.sc_context_status_flag_get_message,
                 Call.printf (Msg.processing_frame_failed f.status)]) ++
          [Call.sc_camera_enqueue_frame_data image_data]
        let r := MatrixScanCameraSample.captureLoop rest
        (body ++ r.1, r.2)
    else ([], true)

/-- The calls that configure the scanner settings in
`CommandLineMatrixScanCameraSample.c` (lines 231-252). -/
def MatrixScanCameraSample.configure : List Call :=
  [Call.sc_barcode_scanner_settings_set_symbology_enabled ScSymbology.SC_SYMBOLOGY_EAN13,
   Call.sc_barcode_scanner_settings_set_symbology_enabled ScSymbology.SC_SYMBOLOGY_UPCA,
   Call.sc_barcode_scanner_settings_set_symbology_enabled ScSymbology.SC_SYMBOLOGY_QR,
   Call.sc_barcode_scanner_settings_set_max_number_of_codes_per_frame 1,
   Call.sc_barcode_scanner_settings_set_code_location_constraint_1d
     ScCodeLocationConstraint.SC_CODE_LOCATION_IGNORE,
   Call.sc_barcode_scanner_settings_set_code_location_constraint_2d
     ScCodeLocationConstraint.SC_CODE_LOCATION_IGNORE,
   Call.sc_barcode_scanner_settings_set_focus_mode,
   Call.sc_barcode_scanner_settings_set_code_direction_hint
     ScCodeDirection.SC_CODE_DIRECTION_LEFT_TO_RIGHT,
   Call.sc_barcode_scanner_settings_set_code_duplicate_filter 0,
   Call.sc_barcode_scanner_settings_set_code_caching_duration 0]

/-- The calls of `CommandLineMatrixScanCameraSample.c` between the start of
the stream and the capture loop when every object is created (lines 210-285). -/
def MatrixScanCameraSample.setup : List Call :=
  [Call.sc_recognition_context_new,
    Call.sc_barcode_scanner_settings_new_with_preset ScPreset.SC_PRESET_NONE] ++
  MatrixScanCameraSample.configure ++
  [Call.sc_barcode_scanner_new_with_settings, Call.sc_barcode_scanner_settings_release,
   Call.sc_object_tracker_new,
   Call.sc_recognition_context_start_new_frame_sequence,
   Call.sc_image_description_new]

/-- The part of `main` of `CommandLineMatrixScanCameraSample.c` after the
stream is started (lines 210-314): context, settings, scanner, object tracker,
the frame sequence around the capture loop, and the release of everything.
Falling off the end of `main` is exit code 0. -/
def MatrixScanCameraSample.scan (env : CameraEnv) : Run :=
  if env.context_ok then
    if env.settings_ok then
      if env.scanner_ok then
        let r := MatrixScanCameraSample.captureLoop env.frames
        if r.2 then
          ⟨MatrixScanCameraSample.setup ++ r.1 ++ MatrixScanCameraSample.teardown,
            Outcome.exited 0⟩
        else ⟨MatrixScanCameraSample.setup ++ r.1, Outcome.running⟩
      else
        ⟨[Call.sc_recognition_context_new,
            Call.sc_barcode_scanner_settings_new_with_preset ScPreset.SC_PRESET_NONE] ++
          MatrixScanCameraSample.configure ++
          [Call.sc_barcode_scanner_new_with_settings, Call.sc_barcode_scanner_settings_release,
           Call.sc_recognition_context_release, Call.sc_camera_release], Outcome.exited (-1)⟩
    else
      ⟨[Call.sc_recognition_context_new,
        Call.sc_barcode_scanner_settings_new_with_preset ScPreset.SC_PRESET_NONE,
        Call.sc_recognition_context_release, Call.sc_camera_release], Outcome.exited (-1)⟩
  else
    ⟨[Call.sc_recognition_context_new, Call.printf Msg.could_not_initialize_context,
      Call.sc_camera_release], Outcome.exited (-1)⟩

/-- The function `main` of `CommandLineMatrixScanCameraSample.c`. -/
def MatrixScanCameraSample.main (env : CameraEnv) : Run :=
  cameraStartup env (MatrixScanCameraSample.scan env)

/-! ## The image-processing sample -/

/-- The table `ENABLED_FILE_EXTENSIONS`, without its terminating `NULL`. -/
def ENABLED_FILE_EXTENSIONS : List (List Char) :=
  ["png".toList, "jpg".toList, "jpeg".toList, "tif".toList, "bmp".toList]

/-- The function `has_valid_extension`: it walks the table in order and returns
true at the first extension that is no longer than the name and equal
(`strcmp`) to the name from position `length - extension_length` on. -/
def has_valid_extension (file_name : List Char) : Bool :=
  let rec go : List (List Char) → Bool
    | [] => false
    | extension :: rest =>
      if file_name.length ≥ extension.length ∧
          file_name.drop (file_name.length - extension.length) = extension then true
      else go rest
  go ENABLED_FILE_EXTENSIONS

/-- One node of the linked list `InputImage`; the list itself (the `next`
pointers) is a Lean list read from its head. -/
structure InputImage where
  file_name : List Char
  deriving DecidableEq, Repr

/-- The function `push_if_valid_image`: a copy of the name is put in front of
the container when the name has a valid extension. -/
def push_if_valid_image (filename : List Char) (container : List InputImage) :
    List InputImage :=
  if has_valid_extension filename = true then ⟨filename⟩ :: container else container

/-- One command-line argument as `get_input_files` sees it: its text, and the
names `readdir` yields when `opendir` succeeds on it (`none` for a plain file). -/
structure Arg where
  text : List Char
  dir_entries : Option (List (List Char))
  deriving DecidableEq, Repr

/-- The function `get_input_files`: `argv[0]` is skipped; the entries of a
directory are pushed as `argument/entry`, any other argument is pushed itself. -/
def get_input_files (argv : List Arg) : List InputImage :=
  (argv.drop 1).foldl (fun ret current_arg =>
    match current_arg.dir_entries with
    | some entries =>
      entries.foldl (fun ret d_name =>
        push_if_valid_image (current_arg.text ++ '/' :: d_name) ret) ret
    | none => push_if_valid_image current_arg.text ret) []

/-- The array `sym_count` after the loop
`for (int i = range_from; i < range_to; ++i) sym_count[i - range_from] = i;`
over 16 uninitialised entries (`none`). -/
def sym_count (range_from range_to : Nat) : List (Option Nat) :=
  (List.range' range_from (range_to - range_from)).foldl
    (fun arr i => arr.set (i - range_from) (some i)) (List.replicate 16 none)

/-- What the environment answers for one input image: the data pointer of
`load_image` (`none` when it returns `SC_FALSE`), the status of
`sc_recognition_context_process_frame`, and the number of codes found. -/
structure ImageAnswer where
  load : Option Nat
  status : ScContextStatusFlag
  num_codes : Nat
  deriving DecidableEq, Repr

/-- The answers of the environment to one run of the image-processing sample;
`argc` is the length of `argv`, `answers i` belongs to the image processed in
turn `i` of the loop. -/
structure ImageEnv where
  argv : List Arg
  context_ok : Bool
  descr_ok : Bool
  settings_ok : Bool
  scanner_ok : Bool
  setup_ok : Bool
  answers : Nat → ImageAnswer

namespace ImageProcessingSample

/-- The block after the label `cleanup:` (lines 311-319); the frees of the list
nodes are left out. -/
def cleanup : List Call :=
  [Call.sc_barcode_scanner_release, Call.sc_barcode_scanner_settings_release,
   Call.sc_recognition_context_release, Call.sc_image_description_release,
   Call.free_image_data]

/-- The `for` loop over the input images (lines 245-309), from turn `i` on: the
calls made and the value of `return_code` when control reaches `cleanup`. -/
def processImages (answers : Nat → ImageAnswer) : Nat → List InputImage → List Call × Int
  | _, [] => ([], 0)
  | i, current_image :: rest =>
    match (answers i).load with
    | none =>
      ([Call.load_image current_image.file_name,
        Call.printf (Msg.failed_to_load_image current_image.file_name)], -1)
    | some image_data =>
      let head :=
        [Call.load_image current_image.file_name,
         Call.sc_image_description_set_layout, Call.sc_image_description_set_width,
         Call.sc_image_description_set_height,
         Call.sc_image_description_set_first_plane_row_bytes,
         Call.sc_image_description_set_memory_size,
         Call.sc_recognition_context_start_new_frame_sequence,
         Call.sc_recognition_context_process_frame image_data]
      if (answers i).status = ScContextStatusFlag.SC_RECOGNITION_CONTEXT_STATUS_SUCCESS then
        let body := head ++
          [Call.sc_recognition_context_end_frame_sequence,
           Call.sc_barcode_scanner_get_session,
           Call.sc_barcode_scanner_session_get_newly_recognized_codes,
           Call.sc_barcode_array_get_size] ++
          (if (answers i).num_codes = 0 then [Call.printf Msg.no_barcodes_found] else []) ++
          ((List.range (answers i).num_codes).map (fun k =>
            [Call.sc_barcode_array_get_item_at k, Call.sc_barcode_get_data,
             Call.sc_barcode_get_symbology, Call.sc_symbology_to_string,
             Call.printf Msg.barcode_line])).flatten ++
          [Call.sc_barcode_array_release, Call.free_image_data]
        let r := processImages answers (i + 1) rest
        (body ++ r.1, r.2)
      else
        (head ++ [Call.sc_context_status_flag_get_message,
          Call.printf (Msg.processing_frame_failed (answers i).status)], -1)

/-- The calls that configure the scanner settings (lines 196-221). -/
def configure : List Call :=
  [Call.sc_barcode_scanner_settings_set_symbology_enabled ScSymbology.SC_SYMBOLOGY_EAN13,
   Call.sc_barcode_scanner_settings_set_symbology_enabled ScSymbology.SC_SYMBOLOGY_UPCA,
   Call.sc_barcode_scanner_settings_set_symbology_enabled ScSymbology.SC_SYMBOLOGY_QR,
   Call.sc_barcode_scanner_settings_set_symbology_enabled ScSymbology.SC_SYMBOLOGY_CODE128,
   Call.sc_barcode_scanner_settings_get_symbology_settings ScSymbology.SC_SYMBOLOGY_CODE128,
   Call.sc_symbology_settings_set_active_symbol_counts (sym_count 4 20) 16,
   Call.sc_barcode_scanner_settings_set_max_number_of_codes_per_frame 1,
   Call.sc_barcode_scanner_settings_set_code_location_constraint_1d
     ScCodeLocationConstraint.SC_CODE_LOCATION_IGNORE,
   Call.sc_barcode_scanner_settings_set_code_location_constraint_2d
     ScCodeLocationConstraint.SC_CODE_LOCATION_IGNORE,
   Call.sc_barcode_scanner_settings_set_code_direction_hint
     ScCodeDirection.SC_CODE_DIRECTION_NONE]

/-- The function `main` of `CommandLineBarcodeScannerImageProcessingSample.c`. -/
def main (env : ImageEnv) : Run :=
  if env.argv.length < 2 then ⟨[Call.printf Msg.usage], Outcome.exited (-1)⟩
  else
    let images := get_input_files env.argv
    if env.context_ok then
      if env.descr_ok then
        if env.settings_ok then
          let t := [Call.printf Msg.sdk_version, Call.sc_recognition_context_new,
              Call.sc_image_description_new,
              Call.sc_barcode_scanner_settings_new_with_preset
                ScPreset.SC_PRESET_ENABLE_SINGLE_FRAME_MODE] ++
            configure ++ [Call.sc_barcode_scanner_new_with_settings]
          if env.scanner_ok then
            if env.setup_ok then
              let r := processImages env.answers 0 images
              ⟨t ++ [Call.sc_barcode_scanner_wait_for_setup_completed] ++ r.1 ++ cleanup,
                Outcome.exited r.2⟩
            else
              ⟨t ++ [Call.sc_barcode_scanner_wait_for_setup_completed,
                Call.printf Msg.scanner_setup_failed] ++ cleanup, Outcome.exited (-1)⟩
          else
            ⟨t ++ [Call.printf Msg.could_not_initialize_scanner] ++ cleanup,
              Outcome.exited (-1)⟩
        else
          ⟨[Call.printf Msg.sdk_version, Call.sc_recognition_context_new,
            Call.sc_image_description_new,
            Call.sc_barcode_scanner_settings_new_with_preset
              ScPreset.SC_PRESET_ENABLE_SINGLE_FRAME_MODE,
            Call.printf Msg.could_not_initialize_settings] ++ cleanup, Outcome.exited (-1)⟩
      else
        ⟨[Call.printf Msg.sdk_version, Call.sc_recognition_context_new,
          Call.sc_image_description_new,
          Call.printf Msg.could_not_initialize_image_description] ++ cleanup,
          Outcome.exited (-1)⟩
    else
      ⟨[Call.printf Msg.sdk_version, Call.sc_recognition_context_new,
        Call.printf Msg.could_not_initialize_context] ++ cleanup, Outcome.exited (-1)⟩

end ImageProcessingSample

/-! ## Protocols read off a list of calls -/

/-- One step of the frame-buffer protocol. The state is the buffer obtained from
`sc_camera_get_frame` and not yet given back, if any. A successful
`sc_camera_get_frame` is allowed only when no buffer is held, and
`sc_camera_enqueue_frame_data` only for the buffer that is held; `none` is a
violation. Every other call leaves the state as it is. -/
def bufStep (held : Option Nat) : Call → Option (Option Nat)
  | Call.sc_camera_get_frame (some image_data) =>
    if held = none then some (some image_data) else none
  | Call.sc_camera_enqueue_frame_data image_data =>
    if held = some image_data then some none else none
  | _ => some held

/-- The frame-buffer protocol along a list of calls: the state at its end, or
`none` if some call violates the protocol. -/
def bufRun (held : Option Nat) : List Call → Option (Option Nat)
  | [] => some held
  | c :: rest =>
    match bufStep held c with
    | none => none
    | some held2 => bufRun held2 rest

/-- The number of successful `sc_camera_get_frame` calls in a list of calls. -/
def acquired (l : List Call) : Nat :=
  l.countP (fun c => match c with
    | Call.sc_camera_get_frame (some _) => true
    | _ => false)

/-- The number of `sc_camera_enqueue_frame_data` calls in a list of calls. -/
def released (l : List Call) : Nat :=
  l.countP (fun c => match c with
    | Call.sc_camera_enqueue_frame_data _ => true
    | _ => false)

/-- The number of image buffers the camera samples ask for
(`sc_camera_new_from_path(argv[1], 4)`). -/
def POOL_SIZE : Nat := 4

/-- One step of the frame-sequence protocol. The state tells whether a frame
sequence is active. Starting a sequence is allowed only when none is active,
processing a frame only when one is; `none` is a violation. -/
def seqStep (active : Bool) : Call → Option Bool
  | Call.sc_recognition_context_start_new_frame_sequence =>
    if active then none else some true
  | Call.sc_recognition_context_process_frame _ =>
    if active then some true else none
  | Call.sc_recognition_context_end_frame_sequence => some false
  | _ => some active

/-- The frame-sequence protocol along a list of calls: the state at its end, or
`none` if some call violates the protocol. -/
def seqRun (active : Bool) : List Call → Option Bool
  | [] => some active
  | c :: rest =>
    match seqStep active c with
    | none => none
    | some active2 => seqRun active2 rest

/-- The calls that touch a camera frame: acquiring it, processing it, giving
it back. -/
def isFrameCall : Call → Bool
  | Call.sc_camera_get_frame _ => true
  | Call.sc_recognition_context_process_frame _ => true
  | Call.sc_camera_enqueue_frame_data _ => true
  | _ => false

/-- The calls that end the frame sequence or release the scanner, the context
or the camera. -/
def isTeardownCall : Call → Bool
  | Call.sc_recognition_context_end_frame_sequence => true
  | Call.sc_barcode_scanner_release => true
  | Call.sc_recognition_context_release => true
  | Call.sc_camera_release => true
  | _ => false

/-- The calls made before the resolution is requested: the signal handler, the
camera object, the queries of its capabilities, and printing. -/
def isQueryCall : Call → Bool
  | Call.signal => true
  | Call.printf _ => true
  | Call.sc_camera_new => true
  | Call.sc_camera_new_from_path _ => true
  | Call.sc_camera_get_resolution_mode => true
  | Call.sc_camera_query_supported_resolutions _ => true
  | Call.sc_camera_query_supported_framerates _ => true
  | Call.sc_framerate_get_fps => true
  | Call.sc_camera_query_supported_resolutions_stepwise => true
  | _ => false

/-- The calls made by the camera samples up to the start of the stream,
including the release of the camera on the paths that give up. -/
def isStartupCall : Call → Bool
  | Call.sc_camera_request_resolution _ _ => true
  | Call.sc_camera_start_stream => true
  | Call.sc_camera_release => true
  | c => isQueryCall c

/-- The calls made inside the capture loops of the camera samples. -/
def isLoopCall : Call → Bool
  | Call.sc_camera_get_frame _ => true
  | Call.sc_recognition_context_process_frame _ => true
  | Call.sc_context_status_flag_get_message => true
  | Call.printf _ => true
  | Call.sc_barcode_scanner_session_get_newly_recognized_codes => true
  | Call.sc_barcode_array_get_size => true
  | Call.sc_barcode_array_get_item_at _ => true
  | Call.sc_barcode_get_data => true
  | Call.sc_camera_enqueue_frame_data _ => true
  | Call.sc_barcode_array_release => true
  | _ => false

/-- The ways the part of a camera sample after the start of the stream can go,
in terms of its setup calls, the calls of its capture loop, whether the loop
was left, and its teardown calls: it gives up with -1 before the frame
sequence is started, or the loop is still running when the recorded answers
end, or the loop is left and the teardown follows. -/
def ScanShape (rest : Run) (setup loop teardown : List Call) (left : Bool) : Prop :=
  (∃ t, rest = ⟨t, Outcome.exited (-1)⟩ ∧
    seqRun false t = some false ∧ (∀ c ∈ t, c ≠ Call.sc_camera_get_frame none) ∧
    (∀ w h, Call.sc_camera_request_resolution w h ∉ t) ∧
    Call.sc_camera_start_stream ∉ t) ∨
  (rest = ⟨setup ++ loop, Outcome.running⟩ ∧ left = false) ∨
  (rest = ⟨setup ++ loop ++ teardown, Outcome.exited 0⟩ ∧ left = true)

/-! ## Concrete environments -/

/-- A stepwise camera whose minimum is not a multiple of its step. -/
def offsetStepwise : ScStepwiseResolution := ⟨10, 1000, 50, 10, 1000, 50⟩

/-- A stepwise camera that reports a zero width step. -/
def zeroStepwise : ScStepwiseResolution := ⟨0, 1000, 0, 0, 1000, 50⟩

/-- The stepwise camera of the end-to-end scenario: 0 to 1000 in steps of 50. -/
def scenarioStepwise : ScStepwiseResolution := ⟨0, 1000, 50, 0, 1000, 50⟩

/-- The discrete camera of the end-to-end scenario. -/
def scenarioDiscrete : List ScSize := [⟨640, 480⟩, ⟨1280, 720⟩]

/-- A camera run without arguments on a discrete camera that lists the default
resolution: two frames are processed (the second with a recognizer error), then
the stop flag is found cleared. -/
def stoppedEnv : CameraEnv :=
  CameraEnv.mk true 1 0 0 true ScCameraMode.SC_CAMERA_MODE_DISCRETE
    [(⟨640, 480⟩, 1), (⟨1280, 720⟩, 2)] scenarioDiscrete
    true scenarioStepwise true true true true true
    [⟨true, some 7, ScContextStatusFlag.SC_RECOGNITION_CONTEXT_STATUS_SUCCESS, 1⟩,
     ⟨true, some 8, ScContextStatusFlag.failure 3, 0⟩,
     ⟨false, some 9, ScContextStatusFlag.SC_RECOGNITION_CONTEXT_STATUS_SUCCESS, 0⟩]

/-- The same camera run, but the second `sc_camera_get_frame` returns `NULL`. -/
def failedFrameEnv : CameraEnv :=
  CameraEnv.mk true 1 0 0 true ScCameraMode.SC_CAMERA_MODE_DISCRETE
    [(⟨640, 480⟩, 1), (⟨1280, 720⟩, 2)] scenarioDiscrete
    true scenarioStepwise true true true true true
    [⟨true, some 7, ScContextStatusFlag.SC_RECOGNITION_CONTEXT_STATUS_SUCCESS, 1⟩,
     ⟨true, none, ScContextStatusFlag.SC_RECOGNITION_CONTEXT_STATUS_SUCCESS, 0⟩,
     ⟨true, some 9, ScContextStatusFlag.SC_RECOGNITION_CONTEXT_STATUS_SUCCESS, 0⟩]

/-- A camera run started as `sample /dev/video1 800 600` on the discrete camera
of the scenario, which does not list 800x600. -/
def unsupportedEnv : CameraEnv :=
  CameraEnv.mk true 4 800 600 true ScCameraMode.SC_CAMERA_MODE_DISCRETE
    [(⟨640, 480⟩, 1), (⟨1280, 720⟩, 2)] scenarioDiscrete
    true scenarioStepwise true true true true true []

/-- A camera run started as `sample /dev/video1 2000 200` on a stepwise camera
that reports a zero width step and widths up to 1000. -/
def outOfRangeZeroStepEnv : CameraEnv :=
  CameraEnv.mk true 4 2000 200 true ScCameraMode.SC_CAMERA_MODE_STEPWISE
    [] [] true zeroStepwise true true true true true []

/-- A run of the image-processing sample on the single image `a.png`, which
loads, and for which the recognizer reports the failure status 3. -/
def failingImageEnv : ImageEnv :=
  ImageEnv.mk [⟨"sample".toList, none⟩, ⟨"a.png".toList, none⟩] true true true true true
    (fun _ => ⟨some 1, ScContextStatusFlag.failure 3, 0⟩)

/-! ## The tracker callbacks of the MatrixScan sample -/

/-- What the callbacks read from a barcode: the results of
`sc_barcode_is_recognized`, `sc_barcode_get_symbology` and the text of
`sc_barcode_get_data`. -/
structure ScBarcode where
  is_recognized : Bool
  symbology : ScSymbology
  data : List Char
  deriving DecidableEq, Repr

/-- What the callbacks read from a tracked object: the results of
`sc_tracked_object_get_id` and `sc_tracked_object_get_barcode`. -/
structure ScTrackedObject where
  id : Nat
  barcode : ScBarcode
  deriving DecidableEq, Repr

/-- The apostrophe that the format strings put around the data. -/
def apostrophe : Char := Char.ofNat 39

/-- The line feed that ends every printed line. -/
def newline : Char := Char.ofNat 10

/-- The function `on_appeared`: the text it prints. `%u` is the id in decimal;
the name of the symbology comes from `sc_symbology_to_string`, which is taken
as a parameter. -/
def on_appeared (sc_symbology_to_string : ScSymbology → List Char)
    (obj : ScTrackedObject) : List Char :=
  if obj.barcode.is_recognized then
    "Barcode #".toList ++ Nat.toDigits 10 obj.id ++ ": ".toList ++
      sc_symbology_to_string obj.barcode.symbology ++ [Char.ofNat 32, apostrophe] ++
      obj.barcode.data ++ [apostrophe] ++ " appeared.".toList ++ [newline]
  else
    "Object #".toList ++ Nat.toDigits 10 obj.id ++ " appeared.".toList ++ [newline]

/-- The function `on_updated`: the text it prints. -/
def on_updated (sc_symbology_to_string : ScSymbology → List Char)
    (obj : ScTrackedObject) : List Char :=
  if obj.barcode.is_recognized then
    "Barcode #".toList ++ Nat.toDigits 10 obj.id ++ ": ".toList ++
      sc_symbology_to_string obj.barcode.symbology ++ [Char.ofNat 32, apostrophe] ++
      obj.barcode.data ++ [apostrophe] ++ " was updated.".toList ++ [newline]
  else
    "Object #".toList ++ Nat.toDigits 10 obj.id ++ " was updated.".toList ++ [newline]

/-- The function `on_lost`: the text it prints. -/
def on_lost (tracking_id : Nat) : List Char :=
  "Object #".toList ++ Nat.toDigits 10 tracking_id ++ " was lost.".toList ++ [newline]

/-- The function `on_predicted`: it prints nothing. -/
def on_predicted (_tracking_id : Nat) : List Char := []

/-! ## The frame-sequence controller (specification 4.4) -/

/-- Modelled from the spec: the state of the frame-sequence controller,
`Idle → Active → Idle`. The controller is the part of the SDK library behind
`sc_recognition_context_start_new_frame_sequence`,
`sc_recognition_context_process_frame` and
`sc_recognition_context_end_frame_sequence`; the library is not among the
sources, the samples only call it. -/
inductive SequenceState where
  | Idle
  | Active
  deriving DecidableEq, Repr

/-- Modelled from the spec: `begin_sequence` takes Idle to Active and fails
(`none`) if the controller is already Active. -/
def begin_sequence : SequenceState → Option SequenceState
  | SequenceState.Idle => some SequenceState.Active
  | SequenceState.Active => none

/-- Modelled from the spec: `submit_frame` is only legal in Active, where it
forwards the frame to the recognizer and returns its raw status without
changing the state; outside Active it fails without side effects. The failure
status is the one the image-processing sample names,
`SC_RECOGNITION_CONTEXT_STATUS_FRAME_SEQUENCE_NOT_STARTED`, whose numeric value
is not in the sources and is taken as the parameter `not_started`. -/
def submit_frame {Frame : Type} (not_started : Nat)
    (recognizer : Frame → ScContextStatusFlag) (state : SequenceState) (frame : Frame) :
    SequenceState × ScContextStatusFlag :=
  match state with
  | SequenceState.Active => (SequenceState.Active, recognizer frame)
  | SequenceState.Idle => (SequenceState.Idle, ScContextStatusFlag.failure not_started)

/-- Modelled from the spec: `end_sequence` takes Active to Idle and is a no-op
when the controller is already Idle. -/
def end_sequence : SequenceState → SequenceState
  | SequenceState.Active => SequenceState.Idle
  | SequenceState.Idle => SequenceState.Idle

/-- Modelled from the spec: the state after submitting a list of frames one
after the other, with the statuses returned, in order. -/
def submit_frames {Frame : Type} (not_started : Nat)
    (recognizer : Frame → ScContextStatusFlag) (state : SequenceState) :
    List Frame → SequenceState × List ScContextStatusFlag
  | [] => (state, [])
  | frame :: rest =>
    let r := submit_frame not_started recognizer state frame
    let rr := submit_frames not_started recognizer r.1 rest
    (rr.1, r.2 :: rr.2)

/-! ## The object tracker (specification 4.5) -/

/-- Modelled from the spec: a 2D point. -/
structure Point where
  x : Int
  y : Int
  deriving DecidableEq, Repr

/-- Modelled from the spec: a quadrilateral, four 2D points. -/
structure Quadrilateral where
  top_left : Point
  top_right : Point
  bottom_right : Point
  bottom_left : Point
  deriving DecidableEq, Repr

/-- Modelled from the spec: `DetectionEvent`, one raw detection of the
recognizer in one frame. -/
structure DetectionEvent where
  candidate_id : Option Nat
  payload : Option (List Char)
  location : Quadrilateral
  frame_timestamp : Nat
  deriving DecidableEq, Repr

/-- Modelled from the spec: the state of a tracked object. -/
inductive ObjectState where
  | Appeared
  | Tracked
  | Predicted
  | Lost
  deriving DecidableEq, Repr

/-- Modelled from the spec: `TrackedObject`. Besides the four fields of the data
model it keeps what steps 4 and 5 of the algorithm read: the time of the last
match and the last velocity estimate. -/
structure TrackedObject where
  id : Nat
  last_known_location : Quadrilateral
  associated_detection : Option (List Char)
  state : ObjectState
  last_match : Nat
  velocity : Point
  deriving DecidableEq, Repr

/-- Modelled from the spec: the four notifications of the event subscriber. -/
inductive TrackerEvent where
  | Appeared (id : Nat) (payload : Option (List Char))
  | Updated (id : Nat) (location : Quadrilateral) (payload : Option (List Char))
  | Predicted (id : Nat) (location : Quadrilateral) (dt : Nat)
  | Lost (id : Nat)
  deriving DecidableEq, Repr

/-- The id of the object an event is about. -/
def TrackerEvent.id : TrackerEvent → Nat
  | TrackerEvent.Appeared id _ => id
  | TrackerEvent.Updated id _ _ => id
  | TrackerEvent.Predicted id _ _ => id
  | TrackerEvent.Lost id => id

/-- Whether an event is a Lost event. -/
def TrackerEvent.isLost : TrackerEvent → Bool
  | TrackerEvent.Lost _ => true
  | _ => false

/-- Whether an event is an Appeared event. -/
def TrackerEvent.isAppeared : TrackerEvent → Bool
  | TrackerEvent.Appeared _ _ => true
  | _ => false

/-- Whether an event is a Predicted event. -/
def TrackerEvent.isPredicted : TrackerEvent → Bool
  | TrackerEvent.Predicted _ _ _ => true
  | _ => false

/-- The place of an event in the order of emission within a frame: Lost,
Appeared, Updated, Predicted. -/
def TrackerEvent.rank : TrackerEvent → Nat
  | TrackerEvent.Lost _ => 0
  | TrackerEvent.Appeared _ _ => 1
  | TrackerEvent.Updated _ _ _ => 2
  | TrackerEvent.Predicted _ _ _ => 3

/-- Modelled from the spec: what the specification leaves to configuration or
does not quantify: the loss horizon, the test of spatial proximity of two
quadrilaterals, and the velocity estimate taken at a match. -/
structure TrackerConfig where
  horizon : Nat
  near : Quadrilateral → Quadrilateral → Bool
  estimate : TrackedObject → DetectionEvent → Point

/-- Modelled from the spec: the object tracker (specification 4.5), with its
live table, the next fresh id (ids are assigned in increasing order and never
reused) and the global switch. The tracker is the part of the SDK library
behind `sc_object_tracker_new`; the library is not among the sources, the
MatrixScan sample only hands it the four callbacks. -/
structure ObjectTracker where
  live : List TrackedObject
  next_id : Nat
  enabled : Bool

/-- Modelled from the spec: one frame's detection set with the time of the
frame. -/
structure TrackerFrame where
  timestamp : Nat
  detections : List DetectionEvent
  deriving DecidableEq, Repr

/-- Modelled from the spec (step 1): a detection matches a tracked object when
the quadrilaterals are near and, when both payloads are available, they are
equal. -/
def matchesObject (cfg : TrackerConfig) (o : TrackedObject) (d : DetectionEvent) : Bool :=
  cfg.near o.last_known_location d.location &&
    (match o.associated_detection, d.payload with
     | some p, some q => decide (p = q)
     | _, _ => true)

/-- Modelled from the spec (step 1): an object is matched in a frame when some
detection of the frame matches it. -/
def isMatched (cfg : TrackerConfig) (frame : TrackerFrame) (o : TrackedObject) : Bool :=
  frame.detections.any (matchesObject cfg o)

/-- Modelled from the spec (step 5): an unmatched object expires when the time
since its last match exceeds the horizon. -/
def isExpired (cfg : TrackerConfig) (frame : TrackerFrame) (o : TrackedObject) : Bool :=
  decide (cfg.horizon < frame.timestamp - o.last_match)

/-- Modelled from the spec (step 4): constant-velocity extrapolation of a point
over the elapsed time. -/
def Point.extrapolate (p velocity : Point) (dt : Nat) : Point :=
  ⟨p.x + velocity.x * dt, p.y + velocity.y * dt⟩

/-- Modelled from the spec (step 4): constant-velocity extrapolation of a
quadrilateral. -/
def Quadrilateral.extrapolate (q : Quadrilateral) (velocity : Point) (dt : Nat) :
    Quadrilateral :=
  ⟨q.top_left.extrapolate velocity dt, q.top_right.extrapolate velocity dt,
   q.bottom_right.extrapolate velocity dt, q.bottom_left.extrapolate velocity dt⟩

/-- Modelled from the spec (step 1): the unmatched detections become new
objects with fresh, increasing ids. -/
def createObjects (now : Nat) : Nat → List DetectionEvent → List TrackedObject
  | _, [] => []
  | next_id, d :: rest =>
    ⟨next_id, d.location, d.payload, ObjectState.Appeared, now, ⟨0, 0⟩⟩ ::
      createObjects now (next_id + 1) rest

/-- Modelled from the spec: what becomes of a live object in a frame. Matched
again, it is refreshed from the first detection that matches it; unmatched, it
is dropped from the table when it expires and is in state Predicted
otherwise. -/
def advanceObject (cfg : TrackerConfig) (frame : TrackerFrame) (o : TrackedObject) :
    Option TrackedObject :=
  match frame.detections.find? (matchesObject cfg o) with
  | some d =>
    some ⟨o.id, d.location,
      (match d.payload with
       | some p => some p
       | none => o.associated_detection),
      ObjectState.Tracked, frame.timestamp, cfg.estimate o d⟩
  | none =>
    if isExpired cfg frame o then none
    else some ⟨o.id, o.last_known_location, o.associated_detection, ObjectState.Predicted,
      o.last_match, o.velocity⟩

/-- Modelled from the spec (step 3): the Updated event of a live object that is
matched again, with the refreshed location and payload. -/
def updatedEvent (cfg : TrackerConfig) (frame : TrackerFrame) (o : TrackedObject) :
    Option TrackerEvent :=
  match frame.detections.find? (matchesObject cfg o) with
  | some d =>
    some (TrackerEvent.Updated o.id d.location
      (match d.payload with
       | some p => some p
       | none => o.associated_detection))
  | none => none

/-- Modelled from the spec: the live objects that no detection of the frame
matches. -/
def unmatchedObjects (cfg : TrackerConfig) (t : ObjectTracker) (frame : TrackerFrame) :
    List TrackedObject :=
  t.live.filter (fun o => !isMatched cfg frame o)

/-- Modelled from the spec: the detections of the frame that match no live
object. -/
def unmatchedDetections (cfg : TrackerConfig) (t : ObjectTracker) (frame : TrackerFrame) :
    List DetectionEvent :=
  frame.detections.filter (fun d => !t.live.any (fun o => matchesObject cfg o d))

/-- Modelled from the spec: the events of one frame, in the order of the
ordering guarantee: Lost for the objects expiring in this frame, then Appeared
for the objects created in it, then (step 3) Updated for the objects matched
again, then Predicted for the objects that stay live but unmatched. -/
def frameEvents (cfg : TrackerConfig) (t : ObjectTracker) (frame : TrackerFrame) :
    List TrackerEvent :=
  ((unmatchedObjects cfg t frame).filter (isExpired cfg frame)).map
      (fun o => TrackerEvent.Lost o.id) ++
  (createObjects frame.timestamp t.next_id (unmatchedDetections cfg t frame)).map
      (fun o => TrackerEvent.Appeared o.id o.associated_detection) ++
  t.live.filterMap (updatedEvent cfg frame) ++
  ((unmatchedObjects cfg t frame).filter (fun o => !isExpired cfg frame o)).map
      (fun o => TrackerEvent.Predicted o.id
        (o.last_known_location.extrapolate o.velocity (frame.timestamp - o.last_match))
        (frame.timestamp - o.last_match))

/-- Modelled from the spec: the object tracker of the SDK library (not among
the sources) processes one frame. Disabled, it emits
nothing and keeps its state. Enabled, it emits the events of the frame, keeps
the surviving objects in table order, appends the new ones and moves the next
id past them. -/
def ObjectTracker.process (cfg : TrackerConfig) (t : ObjectTracker) (frame : TrackerFrame) :
    ObjectTracker × List TrackerEvent :=
  if t.enabled then
    (⟨t.live.filterMap (advanceObject cfg frame) ++
        createObjects frame.timestamp t.next_id (unmatchedDetections cfg t frame),
      t.next_id + (unmatchedDetections cfg t frame).length, true⟩,
     frameEvents cfg t frame)
  else (t, [])

/-- Modelled from the spec: the tracker processes a sequence of frames; the
events of all frames, in order. -/
def ObjectTracker.run (cfg : TrackerConfig) (t : ObjectTracker) :
    List TrackerFrame → ObjectTracker × List TrackerEvent
  | [] => (t, [])
  | frame :: rest =>
    let r := t.process cfg frame
    let rr := ObjectTracker.run cfg r.1 rest
    (rr.1, r.2 ++ rr.2)

/-- Modelled from the spec: a tracker at the start of a session, with an empty
live table, enabled (the MatrixScan sample notes that the tracker is enabled by
default). -/
def ObjectTracker.start : ObjectTracker := ⟨[], 0, true⟩

/-- The ids of the Appeared events of a list of events, in order. -/
def appearedIds (events : List TrackerEvent) : List Nat :=
  events.filterMap (fun e => match e with
    | TrackerEvent.Appeared id _ => some id
    | _ => none)

/-- The object with this id is in the live table and is matched in the frame. -/
def ObjectTracker.matchedIn (cfg : TrackerConfig) (t : ObjectTracker) (frame : TrackerFrame)
    (id : Nat) : Bool :=
  t.live.any (fun o => decide (o.id = id) && isMatched cfg frame o)

/-- The object with this id is matched in every frame of the sequence in which
it is in the live table when the frame arrives. -/
def ObjectTracker.matchedThroughout (cfg : TrackerConfig) (id : Nat) :
    ObjectTracker → List TrackerFrame → Bool
  | _, [] => true
  | t, frame :: rest =>
    (!t.live.any (fun o => decide (o.id = id)) || t.matchedIn cfg frame id) &&
    ObjectTracker.matchedThroughout cfg id (t.process cfg frame).1 rest

/-- A tracker state in which the ids of the live objects are pairwise different
and below the next fresh id. -/
def ObjectTracker.WellFormed (t : ObjectTracker) : Prop :=
  (∀ o ∈ t.live, o.id < t.next_id) ∧ (t.live.map (fun o => o.id)).Nodup

/-- The quadrilateral with all four corners at one point. -/
def Quadrilateral.atPoint (x y : Int) : Quadrilateral := ⟨⟨x, y⟩, ⟨x, y⟩, ⟨x, y⟩, ⟨x, y⟩⟩

/-- A configuration for the scenarios: horizon 2, two quadrilaterals are near
when they are equal, and the velocity estimate is zero. -/
def scenarioConfig : TrackerConfig := ⟨2, fun a b => decide (a = b), fun _ _ => ⟨0, 0⟩⟩

/-- The tracker of the ordering scenario: object A (id 0) was last matched at
time 0 at the origin; the next id is 1. -/
def scenarioTracker : ObjectTracker :=
  ⟨[⟨0, Quadrilateral.atPoint 0 0, none, ObjectState.Tracked, 0, ⟨0, 0⟩⟩], 1, true⟩

/-- The frame of the ordering scenario: at time 5 a single new detection B far
from A. -/
def scenarioFrame : TrackerFrame :=
  ⟨5, [⟨none, some "B".toList, Quadrilateral.atPoint 100 100, 5⟩]⟩

/-- Three frames in which one barcode is detected at the same place every time. -/
def steadyFrames : List TrackerFrame :=
  [⟨1, [⟨none, some "A".toList, Quadrilateral.atPoint 0 0, 1⟩]⟩,
   ⟨2, [⟨none, some "A".toList, Quadrilateral.atPoint 0 0, 2⟩]⟩,
   ⟨3, [⟨none, some "A".toList, Quadrilateral.atPoint 0 0, 3⟩]⟩]

/-! ## Negotiation: theorems -/

theorem discreteLoop_eq_true_iff (w h : Nat) (resolutions : List ScSize) :
    discreteLoop w h resolutions = true ↔
      ∃ r ∈ resolutions, r.width = w ∧ r.height = h := by
  induction resolutions with
  | nil => simp [discreteLoop]
  | cons r rest ih =>
    by_cases hr : r.width = w ∧ r.height = h
    · simp [discreteLoop, hr]
    · have hr2 : ¬ (r.width = w ∧ r.height = h) := hr
      simp only [discreteLoop, if_neg hr, ih, List.mem_cons, exists_eq_or_imp]
      simp [hr2]

/-- C1. For a non-empty list of at most 30 reported resolutions, the discrete
case ends with a value of `supported`, and that value is true exactly when some
listed entry has both the requested width and the requested height. -/
theorem discrete_supported_iff_exact_match (resolutions : List ScSize) (w h : Nat)
    (hne : resolutions ≠ []) (_hlen : resolutions.length ≤ resolutions_size) :
    (discreteBranch resolutions w h = some true ↔
      ∃ r ∈ resolutions, r.width = w ∧ r.height = h) ∧
    (discreteBranch resolutions w h = some false ↔
      ¬ ∃ r ∈ resolutions, r.width = w ∧ r.height = h) := by
  have hpos : resolutions.length ≠ 0 := by
    intro h0
    exact hne (List.length_eq_zero.mp h0)
  have hb : discreteBranch resolutions w h = some (discreteLoop w h resolutions) := by
    simp [discreteBranch, hpos]
  rw [hb, ← discreteLoop_eq_true_iff]
  constructor
  · simp
  · simp

/-- C1, the scenario: with the list 640x480, 1280x720 the request 800x600 is
unsupported and the request 1280x720 is supported. -/
theorem discrete_scenario :
    scenarioDiscrete ≠ [] ∧ scenarioDiscrete.length ≤ resolutions_size ∧
    discreteBranch scenarioDiscrete 800 600 = some false ∧
    discreteBranch scenarioDiscrete 1280 720 = some true :=
  ⟨by decide, by decide,
   (discrete_supported_iff_exact_match scenarioDiscrete 800 600 (by decide) (by decide)).2.2
     (by decide),
   (discrete_supported_iff_exact_match scenarioDiscrete 1280 720 (by decide) (by decide)).1.2
     (by decide)⟩

/-- C2, as the specification words it, fails on the code: with minimum 10 and
step 50 the request 60x60 is a whole number of steps above the minimum, yet the
code reports it unsupported; the request 50x50 is not, yet the code reports it
supported. -/
theorem stepwise_offset_from_minimum_fails :
    0 < offsetStepwise.step_width ∧ 0 < offsetStepwise.step_height ∧
    specStepwiseSupported offsetStepwise 60 60 ∧
    (stepwiseCondition offsetStepwise 60 60).value = some false ∧
    ¬ specStepwiseSupported offsetStepwise 50 50 ∧
    (stepwiseCondition offsetStepwise 50 50).value = some true := by
  decide

/-- C2, amended. With positive steps the stepwise condition always has a value,
and it is true exactly when the request lies in both ranges and the requested
width and height themselves are multiples of the steps (counted from zero, not
from the minimum). -/
theorem stepwise_supported_iff (swres : ScStepwiseResolution) (w h : Nat)
    (hw : 0 < swres.step_width) (hh : 0 < swres.step_height) :
    ((stepwiseCondition swres w h).value = some true ↔
      swres.min_width ≤ w ∧ w ≤ swres.max_width ∧
      swres.min_height ≤ h ∧ h ≤ swres.max_height ∧
      w % swres.step_width = 0 ∧ h % swres.step_height = 0) ∧
    ((stepwiseCondition swres w h).value = some true ∨
      (stepwiseCondition swres w h).value = some false) := by
  have hw0 : swres.step_width ≠ 0 := Nat.pos_iff_ne_zero.mp hw
  have hh0 : swres.step_height ≠ 0 := Nat.pos_iff_ne_zero.mp hh
  unfold stepwiseCondition
  split_ifs <;> simp_all
  exact Decidable.em _

/-- C2, amended, at the scenario camera and the request 450x200. -/
theorem stepwise_supported_iff_witness :
    0 < scenarioStepwise.step_width ∧ 0 < scenarioStepwise.step_height ∧
    (stepwiseCondition scenarioStepwise 450 200).value = some true :=
  ⟨by decide, by decide,
   (stepwise_supported_iff scenarioStepwise 450 200 (by decide) (by decide)).1.2 (by decide)⟩

/-- C4. For the stepwise camera with range 0 to 1000 and step 50 on both axes,
the request 475x200 is unsupported and the request 450x200 is supported. -/
theorem stepwise_scenario :
    (stepwiseCondition scenarioStepwise 475 200).value = some false ∧
    (stepwiseCondition scenarioStepwise 450 200).value = some true := by
  decide

/-! ## The protocols along concatenated traces -/

theorem bufRun_append (held : Option Nat) (a b : List Call) :
    bufRun held (a ++ b) = (bufRun held a).bind (fun held2 => bufRun held2 b) := by
  induction a generalizing held with
  | nil => simp [bufRun]
  | cons c rest ih =>
    simp only [List.cons_append, bufRun]
    cases hstep : bufStep held c with
    | none => simp
    | some held2 => simpa using ih held2

theorem seqRun_append (active : Bool) (a b : List Call) :
    seqRun active (a ++ b) = (seqRun active a).bind (fun active2 => seqRun active2 b) := by
  induction a generalizing active with
  | nil => simp [seqRun]
  | cons c rest ih =>
    simp only [List.cons_append, seqRun]
    cases hstep : seqStep active c with
    | none => simp
    | some active2 => simpa using ih active2

theorem bufStep_of_not_frame (held : Option Nat) (c : Call) (hc : isFrameCall c = false) :
    bufStep held c = some held := by
  cases c <;> first | rfl | exact Bool.noConfusion hc

theorem bufRun_of_quiet (held : Option Nat) (l : List Call)
    (hq : ∀ c ∈ l, isFrameCall c = false) : bufRun held l = some held := by
  induction l with
  | nil => simp [bufRun]
  | cons c rest ih =>
    simp only [bufRun, bufStep_of_not_frame held c (hq c (List.mem_cons_self _ _))]
    exact ih (fun d hd => hq d (List.mem_cons_of_mem _ hd))

/-- One turn of a capture loop keeps the frame-buffer protocol: the frame is
acquired with nothing held, and given back before the turn ends. -/
theorem bufRun_turn (image_data : Nat) (mid tail : List Call)
    (hmid : ∀ c ∈ mid, isFrameCall c = false) (htail : ∀ c ∈ tail, isFrameCall c = false) :
    bufRun none (Call.sc_camera_get_frame (some image_data) ::
      Call.sc_recognition_context_process_frame image_data ::
      (mid ++ Call.sc_camera_enqueue_frame_data image_data :: tail)) = some none := by
  have h1 : bufStep none (Call.sc_camera_get_frame (some image_data)) =
      some (some image_data) := rfl
  have h2 : bufStep (some image_data) (Call.sc_recognition_context_process_frame image_data) =
      some (some image_data) := rfl
  have h3 : bufStep (some image_data) (Call.sc_camera_enqueue_frame_data image_data) =
      some none := by simp [bufStep]
  simp only [bufRun, h1, h2, bufRun_append, bufRun_of_quiet _ mid hmid, Option.some_bind, h3,
    bufRun_of_quiet _ tail htail]

theorem acquired_released_of_bufRun (l : List Call) :
    ∀ held held2, bufRun held l = some held2 →
      acquired l + (if held2.isSome then 0 else 1) =
        released l + (if held.isSome then 0 else 1) := by
  induction l with
  | nil =>
    intro held held2 h
    simp only [bufRun, Option.some.injEq] at h
    subst h
    simp [acquired, released]
  | cons c rest ih =>
    intro held held2 h
    simp only [bufRun] at h
    cases hstep : bufStep held c with
    | none => simp [hstep] at h
    | some held1 =>
      simp only [hstep] at h
      have hrest := ih held1 held2 h
      cases c with
      | sc_camera_get_frame r =>
        cases r with
        | none =>
          have : held1 = held := by simpa [bufStep] using hstep.symm
          subst this
          simpa [acquired, released] using hrest
        | some b =>
          cases held with
          | some x => simp [bufStep] at hstep
          | none =>
            have : held1 = some b := by simpa [bufStep] using hstep.symm
            subst this
            simp [acquired, released] at hrest ⊢
            omega
      | sc_camera_enqueue_frame_data b =>
        by_cases hb : held = some b
        · have : held1 = none := by simpa [bufStep, hb] using hstep.symm
          subst this
          subst hb
          simp [acquired, released] at hrest ⊢
          omega
        · simp [bufStep, hb] at hstep
      | _ =>
        have : held1 = held := by
          have h0 : some held = some held1 := hstep
          exact (Option.some.inj h0).symm
        subst this
        simpa [acquired, released] using hrest


theorem print_all_discrete_resolutions_calls (listing : List (ScSize × Nat)) :
    ∀ c ∈ print_all_discrete_resolutions listing, isQueryCall c = true := by
  intro c hc
  simp only [print_all_discrete_resolutions, List.mem_append, List.mem_cons,
    List.mem_flatten, List.mem_map, List.mem_singleton,
    List.not_mem_nil, or_false] at hc
  rcases hc with (rfl | rfl) | ⟨l, ⟨e, _, rfl⟩, hcl⟩
  · rfl
  · rfl
  · simp only [List.mem_cons, List.mem_flatten, List.mem_replicate] at hcl
    rcases hcl with rfl | ⟨l2, ⟨_, rfl⟩, hc2⟩
    · rfl
    · simp only [List.mem_cons, List.mem_singleton, List.not_mem_nil, or_false] at hc2
      rcases hc2 with rfl | rfl <;> rfl

theorem resolutionSwitch_calls (env : CameraEnv) :
    ∀ c ∈ (resolutionSwitch env).1, isQueryCall c = true := by
  intro c hc
  unfold resolutionSwitch at hc
  split at hc
  · split at hc
    · simp only [List.mem_append, List.mem_singleton] at hc
      rcases hc with (hc | rfl) | rfl
      · exact print_all_discrete_resolutions_calls _ c hc
      · rfl
      · rfl
    · simp only [List.mem_append, List.mem_singleton] at hc
      rcases hc with hc | rfl
      · exact print_all_discrete_resolutions_calls _ c hc
      · rfl
  · split at hc
    · split at hc <;>
      · simp only [List.mem_cons, List.mem_singleton, List.not_mem_nil, or_false] at hc
        rcases hc with rfl | rfl | rfl | rfl <;> rfl
    · simp only [List.mem_cons, List.mem_singleton, List.not_mem_nil, or_false] at hc
      rcases hc with rfl | rfl <;> rfl
  · simp only [List.mem_singleton] at hc
    subst hc
    rfl

theorem openCamera_calls (env : CameraEnv) :
    ∀ c ∈ openCamera env, isQueryCall c = true := by
  intro c hc
  simp only [openCamera, List.mem_cons, List.mem_singleton, List.not_mem_nil, or_false] at hc
  rcases hc with rfl | rfl
  · rfl
  · split <;> rfl

theorem isStartupCall_of_isQueryCall (c : Call) (h : isQueryCall c = true) :
    isStartupCall c = true := by
  cases c <;> first | rfl | exact Bool.noConfusion h

/-- The ways `cameraStartup` can go: it reaches the rest of `main` after
requesting the resolution and starting the stream, or it stops in one of four
shapes. -/
theorem cameraStartup_shape (env : CameraEnv) (rest : Run) :
    (∃ q, (∀ c ∈ q, isQueryCall c = true) ∧ supportedAfterSwitch env = some true ∧
      cameraStartup env rest = Run.after (q ++
        [Call.sc_camera_request_resolution (resolution_width env) (resolution_height env),
         Call.sc_camera_start_stream]) rest) ∨
    (∃ q tail o, (∀ c ∈ q, isQueryCall c = true) ∧ cameraStartup env rest = ⟨q ++ tail, o⟩ ∧
      ((tail = [] ∧ supportedAfterSwitch env = none ∧
          (o = Outcome.exited (-1) ∨ o = Outcome.undefined)) ∨
       (tail = [Call.sc_camera_release] ∧ supportedAfterSwitch env = some false ∧
          o = Outcome.exited (-1)) ∨
       (tail = [Call.sc_camera_request_resolution (resolution_width env) (resolution_height env),
          Call.printf Msg.setting_resolution_failed, Call.sc_camera_release] ∧
          supportedAfterSwitch env = some true ∧ o = Outcome.exited (-1)) ∨
       (tail = [Call.sc_camera_request_resolution (resolution_width env) (resolution_height env),
          Call.sc_camera_start_stream, Call.printf Msg.start_camera_failed,
          Call.sc_camera_release] ∧
          supportedAfterSwitch env = some true ∧ o = Outcome.exited (-1)))) := by
  unfold cameraStartup
  cases hs : env.signal_ok with
  | false =>
    right
    refine ⟨[Call.signal, Call.printf Msg.could_not_set_up_signal_handler], [],
      Outcome.exited (-1), ?_, ?_, ?_⟩
    · intro c hc
      simp only [List.mem_cons, List.mem_singleton, List.not_mem_nil, or_false] at hc
      rcases hc with rfl | rfl <;> rfl
    · simp
    · left
      simp [supportedAfterSwitch, hs]
  | true =>
    cases hc : env.camera_ok with
    | false =>
      right
      refine ⟨openCamera env ++ [Call.printf Msg.no_camera_available], [],
        Outcome.exited (-1), ?_, ?_, ?_⟩
      · intro c hc
        simp only [List.mem_append, List.mem_singleton] at hc
        rcases hc with hc | rfl
        · exact openCamera_calls env c hc
        · rfl
      · simp
      · left
        simp [supportedAfterSwitch, hs, hc]
    | true =>
      have hq := resolutionSwitch_calls env
      rcases hsw : resolutionSwitch env with ⟨t, e⟩
      rw [hsw] at hq
      simp only at hq
      have hq0 : ∀ c ∈ openCamera env ++ [Call.sc_camera_get_resolution_mode] ++ t,
          isQueryCall c = true := by
        intro c hc
        simp only [List.mem_append, List.mem_singleton] at hc
        rcases hc with (hc | rfl) | hc
        · exact openCamera_calls env c hc
        · rfl
        · exact hq c hc
      cases e with
      | returned code =>
        have hcode : code = -1 := by
          have h2 : (resolutionSwitch env).2 = SwitchEnd.returned code := by rw [hsw]
          unfold resolutionSwitch at h2
          split at h2
          · split at h2 <;> simp at h2
            exact h2.symm
          · split at h2
            · split at h2 <;> simp at h2
            · simp at h2
              exact h2.symm
          · simp at h2
            exact h2.symm
        subst hcode
        right
        refine ⟨_, [], Outcome.exited (-1), hq0, ?_, ?_⟩
        · simp [Run.after]
        · left
          simp [supportedAfterSwitch, hs, hc, hsw]
      | undefined =>
        right
        refine ⟨_, [], Outcome.undefined, hq0, ?_, ?_⟩
        · simp [Run.after]
        · left
          simp [supportedAfterSwitch, hs, hc, hsw]
      | fell_through supported =>
        have hsup : supportedAfterSwitch env = some supported := by
          simp [supportedAfterSwitch, hs, hc, hsw]
        cases supported with
        | false =>
          right
          refine ⟨openCamera env ++ [Call.sc_camera_get_resolution_mode] ++ t ++
            [Call.printf (Msg.not_supported (resolution_width env) (resolution_height env))],
            [Call.sc_camera_release], Outcome.exited (-1), ?_, ?_, ?_⟩
          · intro c hc
            simp only [List.mem_append, List.mem_singleton] at hc
            rcases hc with hc | rfl
            · exact hq0 c (by simpa only [List.mem_append, List.mem_singleton] using hc)
            · rfl
          · simp [Run.after, applyResolution]
          · right; left
            exact ⟨rfl, hsup, rfl⟩
        | true =>
          cases hr : env.request_ok with
          | false =>
            right
            refine ⟨_, [Call.sc_camera_request_resolution (resolution_width env)
                (resolution_height env),
              Call.printf Msg.setting_resolution_failed, Call.sc_camera_release],
              Outcome.exited (-1), hq0, ?_, ?_⟩
            · simp [Run.after, applyResolution, hr]
            · right; right; left
              exact ⟨rfl, hsup, rfl⟩
          | true =>
            cases hst : env.stream_ok with
            | false =>
              right
              refine ⟨_, [Call.sc_camera_request_resolution (resolution_width env)
                  (resolution_height env),
                Call.sc_camera_start_stream, Call.printf Msg.start_camera_failed,
                Call.sc_camera_release], Outcome.exited (-1), hq0, ?_, ?_⟩
              · simp [Run.after, applyResolution, hr, hst]
              · right; right; right
                exact ⟨rfl, hsup, rfl⟩
            | true =>
              left
              refine ⟨_, hq0, hsup, ?_⟩
              simp [Run.after, applyResolution, hr, hst]

/-- What every stopped startup has in common. -/
theorem cameraStartup_cases (env : CameraEnv) (rest : Run) :
    (∃ q, (∀ c ∈ q, isQueryCall c = true) ∧ supportedAfterSwitch env = some true ∧
      cameraStartup env rest = Run.after (q ++
        [Call.sc_camera_request_resolution (resolution_width env) (resolution_height env),
         Call.sc_camera_start_stream]) rest) ∨
    (∃ t o, cameraStartup env rest = ⟨t, o⟩ ∧
      (o = Outcome.exited (-1) ∨ o = Outcome.undefined) ∧
      (∀ c ∈ t, isStartupCall c = true) ∧
      (∀ w h, Call.sc_camera_request_resolution w h ∈ t →
        supportedAfterSwitch env = some true ∧
        w = resolution_width env ∧ h = resolution_height env) ∧
      (Call.sc_camera_start_stream ∈ t → supportedAfterSwitch env = some true) ∧
      (supportedAfterSwitch env = some false → o = Outcome.exited (-1))) := by
  rcases cameraStartup_shape env rest with h | ⟨q, tail, o, hq, heq, hshape⟩
  · exact Or.inl h
  · right
    have hnr : ∀ w h, Call.sc_camera_request_resolution w h ∉ q := by
      intro w h hmem
      exact Bool.noConfusion (hq _ hmem)
    have hns : Call.sc_camera_start_stream ∉ q := by
      intro hmem
      exact Bool.noConfusion (hq _ hmem)
    refine ⟨q ++ tail, o, heq, ?_, ?_, ?_, ?_, ?_⟩
    · rcases hshape with ⟨_, _, ho⟩ | ⟨_, _, ho⟩ | ⟨_, _, ho⟩ | ⟨_, _, ho⟩
      · exact ho
      · exact Or.inl ho
      · exact Or.inl ho
      · exact Or.inl ho
    · intro c hc
      rcases List.mem_append.mp hc with hc | hc
      · exact isStartupCall_of_isQueryCall c (hq c hc)
      · rcases hshape with ⟨ht, _, _⟩ | ⟨ht, _, _⟩ | ⟨ht, _, _⟩ | ⟨ht, _, _⟩
        · subst ht
          simp at hc
        · subst ht
          simp only [List.mem_singleton] at hc
          subst hc
          rfl
        · subst ht
          simp only [List.mem_cons, List.mem_singleton, List.not_mem_nil, or_false] at hc
          rcases hc with rfl | rfl | rfl <;> rfl
        · subst ht
          simp only [List.mem_cons, List.mem_singleton, List.not_mem_nil, or_false] at hc
          rcases hc with rfl | rfl | rfl | rfl <;> rfl
    · intro w h hmem
      rcases List.mem_append.mp hmem with hc | hc
      · exact absurd hc (hnr w h)
      · rcases hshape with ⟨ht, _, _⟩ | ⟨ht, _, _⟩ | ⟨ht, hsup, _⟩ | ⟨ht, hsup, _⟩
        · subst ht; simp at hc
        · subst ht; simp at hc
        · subst ht
          simp at hc
          exact ⟨hsup, hc.1, hc.2⟩
        · subst ht
          simp at hc
          exact ⟨hsup, hc.1, hc.2⟩
    · intro hmem
      rcases List.mem_append.mp hmem with hc | hc
      · exact absurd hc hns
      · rcases hshape with ⟨ht, _, _⟩ | ⟨ht, _, _⟩ | ⟨ht, hsup, _⟩ | ⟨ht, hsup, _⟩
        · subst ht; simp at hc
        · subst ht; simp at hc
        · exact hsup
        · exact hsup
    · intro hf
      rcases hshape with ⟨_, hsup, _⟩ | ⟨_, _, ho⟩ | ⟨_, hsup, _⟩ | ⟨_, hsup, _⟩
      · rw [hsup] at hf; simp at hf
      · exact ho
      · rw [hsup] at hf; simp at hf
      · rw [hsup] at hf; simp at hf


theorem seqStep_of_not_sequence (active : Bool) (c : Call)
    (hc : isFrameCall c = false ∧ isTeardownCall c = false ∧
      c ≠ Call.sc_recognition_context_start_new_frame_sequence) :
    seqStep active c = some active := by
  cases c <;> first | rfl | exact Bool.noConfusion hc.1 | exact Bool.noConfusion hc.2.1 |
    exact absurd rfl hc.2.2

theorem seqRun_of_quiet (active : Bool) (l : List Call)
    (hq : ∀ c ∈ l, isFrameCall c = false ∧ isTeardownCall c = false ∧
      c ≠ Call.sc_recognition_context_start_new_frame_sequence) :
    seqRun active l = some active := by
  induction l with
  | nil => simp [seqRun]
  | cons c rest ih =>
    simp only [seqRun, seqStep_of_not_sequence active c (hq c (List.mem_cons_self _ _))]
    exact ih (fun d hd => hq d (List.mem_cons_of_mem _ hd))

theorem seqStep_of_isLoopCall (c : Call) (hc : isLoopCall c = true) :
    seqStep true c = some true := by
  cases c <;> first | rfl | exact Bool.noConfusion hc

theorem seqRun_of_isLoopCall (l : List Call) (hl : ∀ c ∈ l, isLoopCall c = true) :
    seqRun true l = some true := by
  induction l with
  | nil => simp [seqRun]
  | cons c rest ih =>
    simp only [seqRun, seqStep_of_isLoopCall c (hl c (List.mem_cons_self _ _))]
    exact ih (fun d hd => hl d (List.mem_cons_of_mem _ hd))

theorem not_teardown_of_isLoopCall (c : Call) (hc : isLoopCall c = true) :
    isTeardownCall c = false := by
  cases c <;> first | rfl | exact Bool.noConfusion hc

theorem not_startup_of_isLoopCall (c : Call) (hc : isLoopCall c = true) :
    (∀ w h, c ≠ Call.sc_camera_request_resolution w h) ∧ c ≠ Call.sc_camera_start_stream := by
  cases c <;> first | exact Bool.noConfusion hc | exact ⟨fun _ _ h => Call.noConfusion h, fun h => Call.noConfusion h⟩

theorem not_frame_of_isStartupCall (c : Call) (hc : isStartupCall c = true) :
    isFrameCall c = false := by
  cases c <;> first | rfl | exact Bool.noConfusion hc

theorem seqStep_of_isStartupCall (active : Bool) (c : Call) (hc : isStartupCall c = true) :
    seqStep active c = some active := by
  cases c <;> first | rfl | exact Bool.noConfusion hc

theorem seqRun_of_isStartupCall (active : Bool) (l : List Call)
    (hl : ∀ c ∈ l, isStartupCall c = true) : seqRun active l = some active := by
  induction l with
  | nil => simp [seqRun]
  | cons c rest ih =>
    simp only [seqRun, seqStep_of_isStartupCall active c (hl c (List.mem_cons_self _ _))]
    exact ih (fun d hd => hl d (List.mem_cons_of_mem _ hd))

theorem not_teardown_of_isQueryCall (c : Call) (hc : isQueryCall c = true) :
    isTeardownCall c = false := by
  cases c <;> first | rfl | exact Bool.noConfusion hc

/-! ## The capture loops -/

theorem barcode_captureLoop_calls (frames : List FrameInput) :
    ∀ c ∈ (BarcodeScannerCameraSample.captureLoop frames).1, isLoopCall c = true := by
  induction frames with
  | nil => simp [BarcodeScannerCameraSample.captureLoop]
  | cons f rest ih =>
    intro c hc
    unfold BarcodeScannerCameraSample.captureLoop at hc
    split at hc
    · split at hc
      · simp only [List.mem_cons, List.mem_singleton, List.not_mem_nil, or_false] at hc
        rcases hc with rfl | rfl <;> rfl
      · simp only [List.mem_append, List.mem_cons, List.mem_flatten, List.mem_map,
          List.mem_singleton, List.not_mem_nil, or_false] at hc
        rcases hc with ((((hc | hc) | hc) | hc) | hc) | hc
        · rcases hc with rfl | rfl <;> rfl
        · split at hc
          · simp at hc
          · simp only [List.mem_cons, List.mem_singleton, List.not_mem_nil, or_false] at hc
            rcases hc with rfl | rfl <;> rfl
        · rcases hc with rfl | rfl <;> rfl
        · obtain ⟨l, ⟨i, _, rfl⟩, hcl⟩ := hc
          simp only [List.mem_cons, List.mem_singleton, List.not_mem_nil, or_false] at hcl
          rcases hcl with rfl | rfl | rfl <;> rfl
        · rcases hc with rfl | rfl <;> rfl
        · exact ih c hc
    · simp at hc

theorem matrix_captureLoop_calls (frames : List FrameInput) :
    ∀ c ∈ (MatrixScanCameraSample.captureLoop frames).1, isLoopCall c = true := by
  induction frames with
  | nil => simp [MatrixScanCameraSample.captureLoop]
  | cons f rest ih =>
    intro c hc
    unfold MatrixScanCameraSample.captureLoop at hc
    split at hc
    · split at hc
      · simp only [List.mem_cons, List.mem_singleton, List.not_mem_nil, or_false] at hc
        rcases hc with rfl | rfl <;> rfl
      · simp only [List.mem_append, List.mem_cons,
          List.mem_singleton, List.not_mem_nil, or_false] at hc
        rcases hc with ((hc | hc) | hc) | hc
        · rcases hc with rfl | rfl <;> rfl
        · split at hc
          · simp at hc
          · simp only [List.mem_cons, List.mem_singleton, List.not_mem_nil, or_false] at hc
            rcases hc with rfl | rfl <;> rfl
        · subst hc
          rfl
        · exact ih c hc
    · simp at hc

/-- The part of a turn of the barcode capture loop between processing the frame
and giving it back touches no frame. -/
theorem barcode_turn_middle_quiet (f : FrameInput) :
    ∀ c ∈ (if f.status = ScContextStatusFlag.SC_RECOGNITION_CONTEXT_STATUS_SUCCESS then []
           else [Call.sc_context_status_flag_get_message,
                 Call.printf (Msg.processing_frame_failed f.status)]) ++
          [Call.sc_barcode_scanner_session_get_newly_recognized_codes,
           Call.sc_barcode_array_get_size] ++
          ((List.range f.code_count).map (fun i =>
            [Call.sc_barcode_array_get_item_at i, Call.sc_barcode_get_data,
             Call.printf Msg.barcode_found])).flatten, isFrameCall c = false := by
  intro c hc
  simp only [List.mem_append, List.mem_cons, List.mem_flatten, List.mem_map,
    List.mem_singleton, List.not_mem_nil, or_false] at hc
  rcases hc with (hc | hc) | hc
  · split at hc
    · simp at hc
    · simp only [List.mem_cons, List.mem_singleton, List.not_mem_nil, or_false] at hc
      rcases hc with rfl | rfl <;> rfl
  · rcases hc with rfl | rfl <;> rfl
  · obtain ⟨l, ⟨i, _, rfl⟩, hcl⟩ := hc
    simp only [List.mem_cons, List.mem_singleton, List.not_mem_nil, or_false] at hcl
    rcases hcl with rfl | rfl | rfl <;> rfl

theorem matrix_turn_middle_quiet (f : FrameInput) :
    ∀ c ∈ (if f.status = ScContextStatusFlag.SC_RECOGNITION_CONTEXT_STATUS_SUCCESS then []
           else [Call.sc_context_status_flag_get_message,
                 Call.printf (Msg.processing_frame_failed f.status)]), isFrameCall c = false := by
  intro c hc
  split at hc
  · simp at hc
  · simp only [List.mem_cons, List.mem_singleton, List.not_mem_nil, or_false] at hc
    rcases hc with rfl | rfl <;> rfl

theorem barcode_captureLoop_bufRun (frames : List FrameInput) :
    bufRun none (BarcodeScannerCameraSample.captureLoop frames).1 = some none := by
  induction frames with
  | nil => simp [BarcodeScannerCameraSample.captureLoop, bufRun]
  | cons f rest ih =>
    unfold BarcodeScannerCameraSample.captureLoop
    split
    · split
      · rfl
      · rename_i image_data _
        have hturn := bufRun_turn image_data _ [Call.sc_barcode_array_release]
          (barcode_turn_middle_quiet f)
          (by intro c hc; simp only [List.mem_singleton] at hc; subst hc; rfl)
        dsimp only
        rw [bufRun_append]
        have hbody : ∀ l, l = Call.sc_camera_get_frame (some image_data) ::
            Call.sc_recognition_context_process_frame image_data :: (_ ++
              Call.sc_camera_enqueue_frame_data image_data ::
                [Call.sc_barcode_array_release]) → bufRun none l = some none :=
          fun l hl => hl ▸ hturn
        rw [hbody _ (by simp only [List.append_assoc, List.cons_append, List.nil_append])]
        exact ih
    · rfl


theorem matrix_captureLoop_bufRun (frames : List FrameInput) :
    bufRun none (MatrixScanCameraSample.captureLoop frames).1 = some none := by
  induction frames with
  | nil => simp [MatrixScanCameraSample.captureLoop, bufRun]
  | cons f rest ih =>
    unfold MatrixScanCameraSample.captureLoop
    split
    · split
      · rfl
      · rename_i image_data _
        have hturn := bufRun_turn image_data _ []
          (matrix_turn_middle_quiet f)
          (by intro c hc; simp at hc)
        dsimp only
        rw [bufRun_append]
        have hbody : ∀ l, l = Call.sc_camera_get_frame (some image_data) ::
            Call.sc_recognition_context_process_frame image_data :: (_ ++
              Call.sc_camera_enqueue_frame_data image_data :: []) →
              bufRun none l = some none :=
          fun l hl => hl ▸ hturn
        rw [hbody _ (by simp only [List.append_assoc, List.cons_append, List.nil_append])]
        exact ih
    · rfl

theorem null_split_append (turn l : List Call) (left : Bool)
    (hturn : ∀ c ∈ turn, c ≠ Call.sc_camera_get_frame none)
    (ih : (∀ c ∈ l, c ≠ Call.sc_camera_get_frame none) ∨
      (∃ body, (∀ c ∈ body, c ≠ Call.sc_camera_get_frame none) ∧
        l = body ++ [Call.sc_camera_get_frame none, Call.printf Msg.frame_access_failed] ∧
        left = true)) :
    (∀ c ∈ turn ++ l, c ≠ Call.sc_camera_get_frame none) ∨
      (∃ body, (∀ c ∈ body, c ≠ Call.sc_camera_get_frame none) ∧
        turn ++ l =
          body ++ [Call.sc_camera_get_frame none, Call.printf Msg.frame_access_failed] ∧
        left = true) := by
  rcases ih with ih | ⟨body, hbody, heq, hleft⟩
  · left
    intro c hc
    rcases List.mem_append.mp hc with hc | hc
    · exact hturn c hc
    · exact ih c hc
  · right
    refine ⟨turn ++ body, ?_, ?_, hleft⟩
    · intro c hc
      rcases List.mem_append.mp hc with hc | hc
      · exact hturn c hc
      · exact hbody c hc
    · rw [heq, List.append_assoc]

/-- The capture loop as the first `NULL` frame divides it: either no
`sc_camera_get_frame` returned `NULL`, or the loop was left right after the
first one, having printed the failure. -/
theorem barcode_captureLoop_null (frames : List FrameInput) :
    (∀ c ∈ (BarcodeScannerCameraSample.captureLoop frames).1,
      c ≠ Call.sc_camera_get_frame none) ∨
    (∃ body, (∀ c ∈ body, c ≠ Call.sc_camera_get_frame none) ∧
      (BarcodeScannerCameraSample.captureLoop frames).1 =
        body ++ [Call.sc_camera_get_frame none, Call.printf Msg.frame_access_failed] ∧
      (BarcodeScannerCameraSample.captureLoop frames).2 = true) := by
  induction frames with
  | nil => left; simp [BarcodeScannerCameraSample.captureLoop]
  | cons f rest ih =>
    unfold BarcodeScannerCameraSample.captureLoop
    split
    · split
      · right
        exact ⟨[], by simp, rfl, rfl⟩
      · dsimp only
        refine null_split_append _ _ _ ?_ ih
        intro c hc hnull
        subst hnull
        split_ifs at hc <;> simp at hc
    · left
      simp

theorem matrix_captureLoop_null (frames : List FrameInput) :
    (∀ c ∈ (MatrixScanCameraSample.captureLoop frames).1,
      c ≠ Call.sc_camera_get_frame none) ∨
    (∃ body, (∀ c ∈ body, c ≠ Call.sc_camera_get_frame none) ∧
      (MatrixScanCameraSample.captureLoop frames).1 =
        body ++ [Call.sc_camera_get_frame none, Call.printf Msg.frame_access_failed] ∧
      (MatrixScanCameraSample.captureLoop frames).2 = true) := by
  induction frames with
  | nil => left; simp [MatrixScanCameraSample.captureLoop]
  | cons f rest ih =>
    unfold MatrixScanCameraSample.captureLoop
    split
    · split
      · right
        exact ⟨[], by simp, rfl, rfl⟩
      · dsimp only
        refine null_split_append _ _ _ ?_ ih
        intro c hc hnull
        subst hnull
        split_ifs at hc <;> simp at hc
    · left
      simp

/-! ## The camera samples after the start of the stream -/

theorem barcode_scan_shape (env : CameraEnv) :
    ScanShape (BarcodeScannerCameraSample.scan env) BarcodeScannerCameraSample.setup
      (BarcodeScannerCameraSample.captureLoop env.frames).1 BarcodeScannerCameraSample.teardown
      (BarcodeScannerCameraSample.captureLoop env.frames).2 := by
  unfold ScanShape BarcodeScannerCameraSample.scan
  cases env.context_ok with
  | false =>
    left
    refine ⟨_, rfl, ?_, ?_, ?_, ?_⟩
    · decide
    · decide
    · intro w h
      simp
    · decide
  | true =>
    cases env.settings_ok with
    | false =>
      left
      refine ⟨_, rfl, ?_, ?_, ?_, ?_⟩
      · decide
      · decide
      · intro w h
        simp
      · decide
    | true =>
      cases env.scanner_ok with
      | false =>
        left
        refine ⟨_, rfl, ?_, ?_, ?_, ?_⟩
        · decide
        · decide
        · intro w h
          simp [BarcodeScannerCameraSample.configure]
        · decide
      | true =>
        right
        cases hl : (BarcodeScannerCameraSample.captureLoop env.frames).2 with
        | false => left; simp [hl]
        | true => right; simp [hl]


theorem matrix_scan_shape (env : CameraEnv) :
    ScanShape (MatrixScanCameraSample.scan env) MatrixScanCameraSample.setup
      (MatrixScanCameraSample.captureLoop env.frames).1 MatrixScanCameraSample.teardown
      (MatrixScanCameraSample.captureLoop env.frames).2 := by
  unfold ScanShape MatrixScanCameraSample.scan
  cases env.context_ok with
  | false =>
    left
    refine ⟨_, rfl, ?_, ?_, ?_, ?_⟩
    · decide
    · decide
    · intro w h
      simp
    · decide
  | true =>
    cases env.settings_ok with
    | false =>
      left
      refine ⟨_, rfl, ?_, ?_, ?_, ?_⟩
      · decide
      · decide
      · intro w h
        simp
      · decide
    | true =>
      cases env.scanner_ok with
      | false =>
        left
        refine ⟨_, rfl, ?_, ?_, ?_, ?_⟩
        · decide
        · decide
        · intro w h
          simp [MatrixScanCameraSample.configure]
        · decide
      | true =>
        right
        cases hl : (MatrixScanCameraSample.captureLoop env.frames).2 with
        | false => left; simp [hl]
        | true => right; simp [hl]


/-! ## C5: the resolution is applied only after a supported result -/

theorem barcode_scan_no_startup (env : CameraEnv) :
    ∀ c ∈ (BarcodeScannerCameraSample.scan env).trace,
      (∀ w h, c ≠ Call.sc_camera_request_resolution w h) ∧ c ≠ Call.sc_camera_start_stream := by
  intro c hc
  have hloop := barcode_captureLoop_calls env.frames
  have hsetup : ∀ d ∈ BarcodeScannerCameraSample.setup ++
      BarcodeScannerCameraSample.teardown,
      (match d with
       | Call.sc_camera_request_resolution _ _ => false
       | Call.sc_camera_start_stream => false
       | _ => true) = true := by decide
  have hfix : ∀ d : Call,
      (match d with
       | Call.sc_camera_request_resolution _ _ => false
       | Call.sc_camera_start_stream => false
       | _ => true) = true →
      (∀ w h, d ≠ Call.sc_camera_request_resolution w h) ∧ d ≠ Call.sc_camera_start_stream := by
    intro d hd
    constructor
    · intro w h heq
      subst heq
      exact Bool.noConfusion hd
    · intro heq
      subst heq
      exact Bool.noConfusion hd
  rcases barcode_scan_shape env with
    ⟨t, heq, _, _, hreq, hstart⟩ | ⟨heq, _⟩ | ⟨heq, _⟩
  · rw [heq] at hc
    exact ⟨fun w h h2 => hreq w h (h2 ▸ hc), fun h2 => hstart (h2 ▸ hc)⟩
  · rw [heq] at hc
    rcases List.mem_append.mp hc with hc | hc
    · exact hfix c (hsetup c (List.mem_append_left _ hc))
    · exact not_startup_of_isLoopCall c (hloop c hc)
  · rw [heq] at hc
    rcases List.mem_append.mp hc with hc | hc
    · rcases List.mem_append.mp hc with hc | hc
      · exact hfix c (hsetup c (List.mem_append_left _ hc))
      · exact not_startup_of_isLoopCall c (hloop c hc)
    · exact hfix c (hsetup c (List.mem_append_right _ hc))

/-- The startup applies the resolution only after a supported result, whatever
follows it, as long as what follows neither requests a resolution nor starts
the stream. -/
theorem cameraStartup_apply_only_supported (env : CameraEnv) (rest : Run)
    (hrest : ∀ c ∈ rest.trace,
      (∀ w h, c ≠ Call.sc_camera_request_resolution w h) ∧ c ≠ Call.sc_camera_start_stream) :
    (∀ w h, Call.sc_camera_request_resolution w h ∈ (cameraStartup env rest).trace →
      supportedAfterSwitch env = some true ∧
      w = resolution_width env ∧ h = resolution_height env) ∧
    (supportedAfterSwitch env = some false →
      (cameraStartup env rest).outcome = Outcome.exited (-1) ∧
      (∀ w h, Call.sc_camera_request_resolution w h ∉ (cameraStartup env rest).trace) ∧
      Call.sc_camera_start_stream ∉ (cameraStartup env rest).trace) := by
  rcases cameraStartup_cases env rest with
    ⟨q, hq, hsup, heq⟩ | ⟨t, o, heq, _, _, hreq, hstart, hunsup⟩
  · constructor
    · intro w h hmem
      refine ⟨hsup, ?_⟩
      rw [heq] at hmem
      simp only [Run.after, List.mem_append, List.mem_cons, List.mem_singleton,
        List.not_mem_nil, or_false] at hmem
      rcases hmem with (hmem | hmem | hmem) | hmem
      · exact Bool.noConfusion (hq _ hmem)
      · simp only [Call.sc_camera_request_resolution.injEq] at hmem
        exact hmem
      · exact Call.noConfusion hmem
      · exact absurd rfl ((hrest _ hmem).1 w h)
    · intro hf
      rw [hsup] at hf
      simp at hf
  · rw [heq]
    constructor
    · intro w h hmem
      exact hreq w h hmem
    · intro hf
      refine ⟨hunsup hf, ?_, ?_⟩
      · intro w h hmem
        have := (hreq w h hmem).1
        rw [hf] at this
        simp at this
      · intro hmem
        have := hstart hmem
        rw [hf] at this
        simp at this

theorem matrix_scan_no_startup (env : CameraEnv) :
    ∀ c ∈ (MatrixScanCameraSample.scan env).trace,
      (∀ w h, c ≠ Call.sc_camera_request_resolution w h) ∧ c ≠ Call.sc_camera_start_stream := by
  intro c hc
  have hloop := matrix_captureLoop_calls env.frames
  have hsetup : ∀ d ∈ MatrixScanCameraSample.setup ++
      MatrixScanCameraSample.teardown,
      (match d with
       | Call.sc_camera_request_resolution _ _ => false
       | Call.sc_camera_start_stream => false
       | _ => true) = true := by decide
  have hfix : ∀ d : Call,
      (match d with
       | Call.sc_camera_request_resolution _ _ => false
       | Call.sc_camera_start_stream => false
       | _ => true) = true →
      (∀ w h, d ≠ Call.sc_camera_request_resolution w h) ∧ d ≠ Call.sc_camera_start_stream := by
    intro d hd
    constructor
    · intro w h heq
      subst heq
      exact Bool.noConfusion hd
    · intro heq
      subst heq
      exact Bool.noConfusion hd
  rcases matrix_scan_shape env with
    ⟨t, heq, _, _, hreq, hstart⟩ | ⟨heq, _⟩ | ⟨heq, _⟩
  · rw [heq] at hc
    exact ⟨fun w h h2 => hreq w h (h2 ▸ hc), fun h2 => hstart (h2 ▸ hc)⟩
  · rw [heq] at hc
    rcases List.mem_append.mp hc with hc | hc
    · exact hfix c (hsetup c (List.mem_append_left _ hc))
    · exact not_startup_of_isLoopCall c (hloop c hc)
  · rw [heq] at hc
    rcases List.mem_append.mp hc with hc | hc
    · rcases List.mem_append.mp hc with hc | hc
      · exact hfix c (hsetup c (List.mem_append_left _ hc))
      · exact not_startup_of_isLoopCall c (hloop c hc)
    · exact hfix c (hsetup c (List.mem_append_right _ hc))


/-- C5. In every run of both camera samples, `sc_camera_request_resolution` is
called only when the `switch` has left `supported` true, and then with exactly
the requested width and height; when it has left `supported` false, `main`
returns -1 and neither requests a resolution nor starts the stream. -/
theorem apply_resolution_only_after_supported (env : CameraEnv) :
    ((∀ w h, Call.sc_camera_request_resolution w h ∈
        (BarcodeScannerCameraSample.main env).trace →
      supportedAfterSwitch env = some true ∧
      w = resolution_width env ∧ h = resolution_height env) ∧
     (supportedAfterSwitch env = some false →
      (BarcodeScannerCameraSample.main env).outcome = Outcome.exited (-1) ∧
      (∀ w h, Call.sc_camera_request_resolution w h ∉
        (BarcodeScannerCameraSample.main env).trace) ∧
      Call.sc_camera_start_stream ∉ (BarcodeScannerCameraSample.main env).trace)) ∧
    ((∀ w h, Call.sc_camera_request_resolution w h ∈
        (MatrixScanCameraSample.main env).trace →
      supportedAfterSwitch env = some true ∧
      w = resolution_width env ∧ h = resolution_height env) ∧
     (supportedAfterSwitch env = some false →
      (MatrixScanCameraSample.main env).outcome = Outcome.exited (-1) ∧
      (∀ w h, Call.sc_camera_request_resolution w h ∉
        (MatrixScanCameraSample.main env).trace) ∧
      Call.sc_camera_start_stream ∉ (MatrixScanCameraSample.main env).trace)) := by
  constructor
  · exact cameraStartup_apply_only_supported env _
      (barcode_scan_no_startup env)
  · exact cameraStartup_apply_only_supported env _
      (matrix_scan_no_startup env)

/-- C5 at two runs: without arguments on a camera that lists 1280x720 the
resolution 1280x720 is requested and `supported` was true; started with
800 600 on the same camera, the run returns -1 without a request. -/
theorem apply_resolution_only_after_supported_witness :
    Call.sc_camera_request_resolution 1280 720 ∈
      (BarcodeScannerCameraSample.main stoppedEnv).trace ∧
    supportedAfterSwitch stoppedEnv = some true ∧
    supportedAfterSwitch unsupportedEnv = some false ∧
    (MatrixScanCameraSample.main unsupportedEnv).outcome = Outcome.exited (-1) :=
  ⟨by decide,
   ((apply_resolution_only_after_supported stoppedEnv).1.1 1280 720 (by decide)).1,
   by decide,
   ((apply_resolution_only_after_supported unsupportedEnv).2.2 (by decide)).1⟩

/-! ## C6: acquire and release alternate -/

theorem bufRun_take (l : List Call) (held : Option Nat) (h : bufRun none l = some held)
    (k : Nat) :
    (∃ held2, bufRun none (l.take k) = some held2) ∧
    released (l.take k) ≤ acquired (l.take k) ∧
    acquired (l.take k) ≤ released (l.take k) + 1 := by
  have hsplit : bufRun none (l.take k ++ l.drop k) = some held := by
    rw [List.take_append_drop]
    exact h
  rw [bufRun_append] at hsplit
  cases hk : bufRun none (l.take k) with
  | none =>
    rw [hk] at hsplit
    simp at hsplit
  | some held2 =>
    have hcount := acquired_released_of_bufRun (l.take k) none held2 hk
    refine ⟨⟨held2, rfl⟩, ?_, ?_⟩
    · simp only [Option.isSome_none, Bool.false_eq_true, if_false] at hcount
      split at hcount <;> omega
    · simp only [Option.isSome_none, Bool.false_eq_true, if_false] at hcount
      split at hcount <;> omega

/-- C6. Along the calls of the capture loop of either camera sample, for any
recorded answers, a frame is acquired only when none is held and only the held
frame is given back, so nothing is held when a turn ends; and after any number
`k` of calls, the frames acquired and not yet given back number 0 or 1, within
the 4 buffers of the camera. -/
theorem capture_loop_acquire_release_balance (frames : List FrameInput) (k : Nat) :
    (bufRun none (BarcodeScannerCameraSample.captureLoop frames).1 = some none ∧
     (∃ held, bufRun none
        ((BarcodeScannerCameraSample.captureLoop frames).1.take k) = some held) ∧
     released ((BarcodeScannerCameraSample.captureLoop frames).1.take k) ≤
       acquired ((BarcodeScannerCameraSample.captureLoop frames).1.take k) ∧
     acquired ((BarcodeScannerCameraSample.captureLoop frames).1.take k) ≤
       released ((BarcodeScannerCameraSample.captureLoop frames).1.take k) + 1 ∧
     acquired ((BarcodeScannerCameraSample.captureLoop frames).1.take k) -
       released ((BarcodeScannerCameraSample.captureLoop frames).1.take k) ≤ POOL_SIZE) ∧
    (bufRun none (MatrixScanCameraSample.captureLoop frames).1 = some none ∧
     (∃ held, bufRun none
        ((MatrixScanCameraSample.captureLoop frames).1.take k) = some held) ∧
     released ((MatrixScanCameraSample.captureLoop frames).1.take k) ≤
       acquired ((MatrixScanCameraSample.captureLoop frames).1.take k) ∧
     acquired ((MatrixScanCameraSample.captureLoop frames).1.take k) ≤
       released ((MatrixScanCameraSample.captureLoop frames).1.take k) + 1 ∧
     acquired ((MatrixScanCameraSample.captureLoop frames).1.take k) -
       released ((MatrixScanCameraSample.captureLoop frames).1.take k) ≤ POOL_SIZE) := by
  have hb := barcode_captureLoop_bufRun frames
  have hm := matrix_captureLoop_bufRun frames
  obtain ⟨hb1, hb2, hb3⟩ := bufRun_take _ _ hb k
  obtain ⟨hm1, hm2, hm3⟩ := bufRun_take _ _ hm k
  have hpool : POOL_SIZE = 4 := rfl
  refine ⟨⟨hb, hb1, hb2, hb3, ?_⟩, ⟨hm, hm1, hm2, hm3, ?_⟩⟩
  · omega
  · omega

/-! ## C7: frames are processed only inside a frame sequence -/

theorem barcode_scan_seqRun (env : CameraEnv) :
    ∃ s, seqRun false (BarcodeScannerCameraSample.scan env).trace = some s := by
  have hloop := seqRun_of_isLoopCall _ (barcode_captureLoop_calls env.frames)
  have hsetup : seqRun false BarcodeScannerCameraSample.setup = some true := by decide
  rcases barcode_scan_shape env with ⟨t, heq, hseq, _⟩ | ⟨heq, _⟩ | ⟨heq, _⟩
  · exact ⟨false, by rw [heq]; exact hseq⟩
  · refine ⟨true, ?_⟩
    rw [heq]
    simp only [seqRun_append, hsetup, Option.some_bind, hloop]
  · refine ⟨false, ?_⟩
    rw [heq]
    simp only [seqRun_append, hsetup, Option.some_bind, hloop]
    decide

theorem matrix_scan_seqRun (env : CameraEnv) :
    ∃ s, seqRun false (MatrixScanCameraSample.scan env).trace = some s := by
  have hloop := seqRun_of_isLoopCall _ (matrix_captureLoop_calls env.frames)
  have hsetup : seqRun false MatrixScanCameraSample.setup = some true := by decide
  rcases matrix_scan_shape env with ⟨t, heq, hseq, _⟩ | ⟨heq, _⟩ | ⟨heq, _⟩
  · exact ⟨false, by rw [heq]; exact hseq⟩
  · refine ⟨true, ?_⟩
    rw [heq]
    simp only [seqRun_append, hsetup, Option.some_bind, hloop]
  · refine ⟨false, ?_⟩
    rw [heq]
    simp only [seqRun_append, hsetup, Option.some_bind, hloop]
    decide

theorem cameraStartup_seqRun (env : CameraEnv) (rest : Run)
    (hrest : ∃ s, seqRun false rest.trace = some s) :
    ∃ s, seqRun false (cameraStartup env rest).trace = some s := by
  rcases cameraStartup_cases env rest with ⟨q, hq, _, heq⟩ | ⟨t, o, heq, _, ht, _⟩
  · obtain ⟨s, hs⟩ := hrest
    refine ⟨s, ?_⟩
    rw [heq]
    have hpre : seqRun false (q ++
        [Call.sc_camera_request_resolution (resolution_width env) (resolution_height env),
         Call.sc_camera_start_stream]) = some false := by
      apply seqRun_of_isStartupCall
      intro c hc
      simp only [List.mem_append, List.mem_cons, List.mem_singleton, List.not_mem_nil,
        or_false] at hc
      rcases hc with hc | rfl | rfl
      · exact isStartupCall_of_isQueryCall c (hq c hc)
      · rfl
      · rfl
    simp only [Run.after, seqRun_append, hpre, Option.some_bind, hs]
  · exact ⟨false, by rw [heq]; exact seqRun_of_isStartupCall false t ht⟩

theorem seqRun_cleanup (s : Bool) : seqRun s ImageProcessingSample.cleanup = some s := by
  cases s <;> decide

theorem image_processImages_seqRun (answers : Nat → ImageAnswer)
    (images : List InputImage) :
    ∀ i, ∃ s, seqRun false (ImageProcessingSample.processImages answers i images).1 = some s := by
  induction images with
  | nil => intro i; exact ⟨false, rfl⟩
  | cons current_image rest ih =>
    intro i
    unfold ImageProcessingSample.processImages
    split
    · exact ⟨false, rfl⟩
    · dsimp only
      split
      · obtain ⟨s, hs⟩ := ih (i + 1)
        refine ⟨s, ?_⟩
        have hcodes : seqRun false ((List.range (answers i).num_codes).map (fun k =>
            [Call.sc_barcode_array_get_item_at k, Call.sc_barcode_get_data,
             Call.sc_barcode_get_symbology, Call.sc_symbology_to_string,
             Call.printf Msg.barcode_line])).flatten = some false := by
          apply seqRun_of_quiet
          intro c hc
          simp only [List.mem_flatten, List.mem_map] at hc
          obtain ⟨l, ⟨k, _, rfl⟩, hcl⟩ := hc
          simp only [List.mem_cons, List.mem_singleton, List.not_mem_nil, or_false] at hcl
          rcases hcl with rfl | rfl | rfl | rfl | rfl <;>
            exact ⟨rfl, rfl, fun h => Call.noConfusion h⟩
        have hnone : seqRun false (if (answers i).num_codes = 0 then
            [Call.printf Msg.no_barcodes_found] else []) = some false := by
          split <;> rfl
        have h1 : ∀ (name : List Char) (d : Nat), seqRun false
            [Call.load_image name,
             Call.sc_image_description_set_layout, Call.sc_image_description_set_width,
             Call.sc_image_description_set_height,
             Call.sc_image_description_set_first_plane_row_bytes,
             Call.sc_image_description_set_memory_size,
             Call.sc_recognition_context_start_new_frame_sequence,
             Call.sc_recognition_context_process_frame d] = some true := fun _ _ => rfl
        have h2 : seqRun true
            [Call.sc_recognition_context_end_frame_sequence,
             Call.sc_barcode_scanner_get_session,
             Call.sc_barcode_scanner_session_get_newly_recognized_codes,
             Call.sc_barcode_array_get_size] = some false := rfl
        have h3 : seqRun false [Call.sc_barcode_array_release, Call.free_image_data] =
            some false := rfl
        simp only [seqRun_append, h1, h2, h3, hcodes, hnone, Option.some_bind, hs]
      · exact ⟨true, rfl⟩

theorem image_main_seqRun (env : ImageEnv) :
    ∃ s, seqRun false (ImageProcessingSample.main env).trace = some s := by
  unfold ImageProcessingSample.main
  split
  · exact ⟨false, rfl⟩
  · dsimp only
    cases env.context_ok with
    | false => exact ⟨false, rfl⟩
    | true =>
      cases env.descr_ok with
      | false => exact ⟨false, rfl⟩
      | true =>
        cases env.settings_ok with
        | false => exact ⟨false, rfl⟩
        | true =>
          cases env.scanner_ok with
          | false => exact ⟨false, rfl⟩
          | true =>
            cases env.setup_ok with
            | false => exact ⟨false, rfl⟩
            | true =>
              obtain ⟨s, hs⟩ := image_processImages_seqRun env.answers
                (get_input_files env.argv) 0
              refine ⟨s, ?_⟩
              have h0 : seqRun false
                  ([Call.printf Msg.sdk_version, Call.sc_recognition_context_new,
                    Call.sc_image_description_new,
                    Call.sc_barcode_scanner_settings_new_with_preset
                      ScPreset.SC_PRESET_ENABLE_SINGLE_FRAME_MODE] ++
                    ImageProcessingSample.configure ++
                    [Call.sc_barcode_scanner_new_with_settings] ++
                    [Call.sc_barcode_scanner_wait_for_setup_completed]) = some false := by
                decide
              simp only [if_true]
              rw [seqRun_append, seqRun_append, h0]
              simp only [Option.some_bind, hs, seqRun_cleanup]

/-- C7. In every run of the three scanner samples, a frame is processed only
while a frame sequence is active (started and not yet ended), and a frame
sequence is never started while one is active: the frame-sequence protocol
accepts the whole list of calls, starting with no active sequence. -/
theorem process_frame_only_in_active_sequence (cenv : CameraEnv) (ienv : ImageEnv) :
    (∃ s, seqRun false (BarcodeScannerCameraSample.main cenv).trace = some s) ∧
    (∃ s, seqRun false (MatrixScanCameraSample.main cenv).trace = some s) ∧
    (∃ s, seqRun false (ImageProcessingSample.main ienv).trace = some s) := by
  refine ⟨?_, ?_, ?_⟩
  · exact cameraStartup_seqRun cenv _ (barcode_scan_seqRun cenv)
  · exact cameraStartup_seqRun cenv _ (matrix_scan_seqRun cenv)
  · exact image_main_seqRun ienv

/-! ## C8: the capture loop is unwound cleanly -/

theorem not_frame_of_isQueryCall (c : Call) (hc : isQueryCall c = true) :
    isFrameCall c = false := by
  cases c <;> first | rfl | exact Bool.noConfusion hc

/-- When a camera sample returns 0, its calls are the calls up to the end of
the capture loop, after which no frame is held, followed by the teardown. -/
theorem cameraStartup_unwind (env : CameraEnv) (rest : Run)
    (setup loop teardown : List Call) (left : Bool)
    (hshape : ScanShape rest setup loop teardown left)
    (hsetup : ∀ c ∈ setup, isFrameCall c = false ∧ isTeardownCall c = false)
    (hbuf : bufRun none loop = some none)
    (hloop : ∀ c ∈ loop, isLoopCall c = true)
    (hcount : teardown.count Call.sc_recognition_context_end_frame_sequence = 1)
    (hexit : (cameraStartup env rest).outcome = Outcome.exited 0) :
    left = true ∧
    ∃ pre, (cameraStartup env rest).trace = pre ++ teardown ∧
      bufRun none pre = some none ∧
      (∀ c ∈ pre, isTeardownCall c = false) ∧
      (cameraStartup env rest).trace.count Call.sc_recognition_context_end_frame_sequence = 1 := by
  rcases cameraStartup_cases env rest with ⟨q, hq, _, heq⟩ | ⟨t, o, heq, ho, _⟩
  · rw [heq] at hexit ⊢
    simp only [Run.after] at hexit ⊢
    rcases hshape with ⟨t, hrest, _⟩ | ⟨hrest, _⟩ | ⟨hrest, hleft⟩
    · rw [hrest] at hexit
      simp at hexit
    · rw [hrest] at hexit
      simp at hexit
    · refine ⟨hleft, q ++ [Call.sc_camera_request_resolution (resolution_width env)
          (resolution_height env), Call.sc_camera_start_stream] ++ setup ++ loop, ?_, ?_, ?_, ?_⟩
      · rw [hrest]
        simp only [List.append_assoc]
      · have h1 : bufRun none (q ++ [Call.sc_camera_request_resolution (resolution_width env)
            (resolution_height env), Call.sc_camera_start_stream] ++ setup) = some none := by
          apply bufRun_of_quiet
          intro c hc
          simp only [List.mem_append, List.mem_cons, List.mem_singleton, List.not_mem_nil,
            or_false] at hc
          rcases hc with (hc | rfl | rfl) | hc
          · exact not_frame_of_isQueryCall c (hq c hc)
          · rfl
          · rfl
          · exact (hsetup c hc).1
        rw [bufRun_append, h1]
        exact hbuf
      · have hpre : ∀ c ∈ q ++ [Call.sc_camera_request_resolution (resolution_width env)
            (resolution_height env), Call.sc_camera_start_stream] ++ setup ++ loop,
            isTeardownCall c = false := by
          intro c hc
          simp only [List.mem_append, List.mem_cons, List.mem_singleton, List.not_mem_nil,
            or_false] at hc
          rcases hc with ((hc | rfl | rfl) | hc) | hc
          · exact not_teardown_of_isQueryCall c (hq c hc)
          · rfl
          · rfl
          · exact (hsetup c hc).2
          · exact not_teardown_of_isLoopCall c (hloop c hc)
        exact hpre
      · have hpre : ∀ c ∈ q ++ [Call.sc_camera_request_resolution (resolution_width env)
            (resolution_height env), Call.sc_camera_start_stream] ++ (setup ++ loop),
            isTeardownCall c = false := by
          intro c hc
          simp only [List.mem_append, List.mem_cons, List.mem_singleton, List.not_mem_nil,
            or_false] at hc
          rcases hc with (hc | rfl | rfl) | hc | hc
          · exact not_teardown_of_isQueryCall c (hq c hc)
          · rfl
          · rfl
          · exact (hsetup c hc).2
          · exact not_teardown_of_isLoopCall c (hloop c hc)
        have hzero : (q ++ [Call.sc_camera_request_resolution (resolution_width env)
            (resolution_height env), Call.sc_camera_start_stream] ++ (setup ++ loop)).count
            Call.sc_recognition_context_end_frame_sequence = 0 := by
          apply List.count_eq_zero.mpr
          intro hmem
          exact Bool.noConfusion (hpre _ hmem)
        rw [hrest]
        simp only [← List.append_assoc]
        rw [List.count_append, hcount]
        simp only [List.append_assoc] at hzero ⊢
        rw [hzero]
  · rw [heq] at hexit
    simp only at hexit
    rcases ho with ho | ho <;> rw [ho] at hexit <;> simp at hexit

/-- C8. Whenever a camera sample leaves its capture loop (`main` then returns
0), be it through the cleared stop flag or a failed frame acquisition, the loop
was indeed left with no acquired frame still held, and what follows is exactly
the teardown: `sc_recognition_context_end_frame_sequence`, called once in the
whole run, and after it the releases of scanner, context and camera, none of
which occurs earlier. -/
theorem capture_loop_clean_unwind (env : CameraEnv) :
    ((BarcodeScannerCameraSample.main env).outcome = Outcome.exited 0 →
      (BarcodeScannerCameraSample.captureLoop env.frames).2 = true ∧
      ∃ pre, (BarcodeScannerCameraSample.main env).trace =
          pre ++ [Call.sc_recognition_context_end_frame_sequence,
            Call.sc_image_description_release, Call.sc_barcode_scanner_release,
            Call.sc_recognition_context_release, Call.sc_camera_release] ∧
        bufRun none pre = some none ∧
        (∀ c ∈ pre, isTeardownCall c = false) ∧
        (BarcodeScannerCameraSample.main env).trace.count
          Call.sc_recognition_context_end_frame_sequence = 1) ∧
    ((MatrixScanCameraSample.main env).outcome = Outcome.exited 0 →
      (MatrixScanCameraSample.captureLoop env.frames).2 = true ∧
      ∃ pre, (MatrixScanCameraSample.main env).trace =
          pre ++ [Call.sc_recognition_context_end_frame_sequence,
            Call.sc_image_description_release, Call.sc_object_tracker_release,
            Call.sc_barcode_scanner_release,
            Call.sc_recognition_context_release, Call.sc_camera_release] ∧
        bufRun none pre = some none ∧
        (∀ c ∈ pre, isTeardownCall c = false) ∧
        (MatrixScanCameraSample.main env).trace.count
          Call.sc_recognition_context_end_frame_sequence = 1) := by
  constructor
  · intro hexit
    exact cameraStartup_unwind env _ BarcodeScannerCameraSample.setup _
      BarcodeScannerCameraSample.teardown _
      (barcode_scan_shape env) (by decide)
      (barcode_captureLoop_bufRun env.frames)
      (barcode_captureLoop_calls env.frames) (by decide) hexit
  · intro hexit
    exact cameraStartup_unwind env _ MatrixScanCameraSample.setup _
      MatrixScanCameraSample.teardown _
      (matrix_scan_shape env) (by decide)
      (matrix_captureLoop_bufRun env.frames)
      (matrix_captureLoop_calls env.frames) (by decide) hexit

/-- C8 at two runs: one left through the stop flag (barcode sample), one
through a failed frame acquisition (MatrixScan sample). -/
theorem capture_loop_clean_unwind_witness :
    (BarcodeScannerCameraSample.main stoppedEnv).outcome = Outcome.exited 0 ∧
    (BarcodeScannerCameraSample.main stoppedEnv).trace.count
      Call.sc_recognition_context_end_frame_sequence = 1 ∧
    (MatrixScanCameraSample.main failedFrameEnv).outcome = Outcome.exited 0 ∧
    (MatrixScanCameraSample.main failedFrameEnv).trace.count
      Call.sc_recognition_context_end_frame_sequence = 1 := by
  obtain ⟨_, _, _, _, _, h1⟩ := (capture_loop_clean_unwind stoppedEnv).1 (by decide)
  obtain ⟨_, _, _, _, _, h2⟩ := (capture_loop_clean_unwind failedFrameEnv).2 (by decide)
  exact ⟨by decide, h1, by decide, h2⟩

/-! ## C10: a failed frame acquisition ends the loop -/

/-- After the first `NULL` frame a camera sample prints the failure and tears
down; nothing else follows. -/
theorem cameraStartup_after_null (env : CameraEnv) (rest : Run)
    (setup loop teardown : List Call) (left : Bool)
    (hshape : ScanShape rest setup loop teardown left)
    (hsetup : ∀ c ∈ setup ++ teardown, c ≠ Call.sc_camera_get_frame none)
    (hloop : (∀ c ∈ loop, c ≠ Call.sc_camera_get_frame none) ∨
      (∃ body, (∀ c ∈ body, c ≠ Call.sc_camera_get_frame none) ∧
        loop = body ++ [Call.sc_camera_get_frame none, Call.printf Msg.frame_access_failed] ∧
        left = true))
    (pre post : List Call)
    (hsplit : (cameraStartup env rest).trace = pre ++ Call.sc_camera_get_frame none :: post) :
    post = Call.printf Msg.frame_access_failed :: teardown ∧
    (∀ c ∈ pre, c ≠ Call.sc_camera_get_frame none) ∧
    (cameraStartup env rest).outcome = Outcome.exited 0 := by
  have hmem : Call.sc_camera_get_frame none ∈ (cameraStartup env rest).trace := by
    rw [hsplit]
    simp
  have hstart : ∀ c, isStartupCall c = true → c ≠ Call.sc_camera_get_frame none := by
    intro c hc heq
    subst heq
    exact Bool.noConfusion hc
  rcases cameraStartup_cases env rest with ⟨q, hq, _, heq⟩ | ⟨t, o, heq, _, ht, _⟩
  · rw [heq] at hsplit hmem ⊢
    simp only [Run.after] at hsplit hmem ⊢
    have hq2 : ∀ c ∈ q ++ [Call.sc_camera_request_resolution (resolution_width env)
        (resolution_height env), Call.sc_camera_start_stream],
        c ≠ Call.sc_camera_get_frame none := by
      intro c hc
      simp only [List.mem_append, List.mem_cons, List.mem_singleton, List.not_mem_nil,
        or_false] at hc
      rcases hc with hc | rfl | rfl
      · exact hstart c (isStartupCall_of_isQueryCall c (hq c hc))
      · exact fun h => Call.noConfusion h
      · exact fun h => Call.noConfusion h
    rcases hshape with ⟨t, hrest, _, hnull, _⟩ | ⟨hrest, hleft⟩ | ⟨hrest, hleft⟩
    · rw [hrest] at hmem
      rcases List.mem_append.mp hmem with h | h
      · exact absurd rfl (hq2 _ h)
      · exact absurd rfl (hnull _ h)
    · rw [hrest] at hmem
      simp only [List.mem_append] at hmem
      rcases hloop with hfree | ⟨body, _, _, hl⟩
      · rcases hmem with h | h | h
        · exact absurd rfl (hq2 _ (List.mem_append.mpr h))
        · exact absurd rfl (hsetup _ (List.mem_append_left _ h))
        · exact absurd rfl (hfree _ h)
      · rw [hleft] at hl
        simp at hl
    · rcases hloop with hfree | ⟨body, hbody, hbeq, _⟩
      · rw [hrest] at hmem
        simp only [List.mem_append] at hmem
        rcases hmem with h | (h | h) | h
        · exact absurd rfl (hq2 _ (List.mem_append.mpr h))
        · exact absurd rfl (hsetup _ (List.mem_append_left _ h))
        · exact absurd rfl (hfree _ h)
        · exact absurd rfl (hsetup _ (List.mem_append_right _ h))
      · rw [hrest, hbeq] at hsplit
        have hshape2 : (q ++ [Call.sc_camera_request_resolution (resolution_width env)
            (resolution_height env), Call.sc_camera_start_stream] ++ setup ++ body) ++
            Call.sc_camera_get_frame none :: (Call.printf Msg.frame_access_failed :: teardown) =
            pre ++ Call.sc_camera_get_frame none :: post := by
          rw [← hsplit]
          simp only [List.append_assoc, List.cons_append, List.nil_append]
        have hnot1 : Call.sc_camera_get_frame none ∉
            q ++ [Call.sc_camera_request_resolution (resolution_width env)
              (resolution_height env), Call.sc_camera_start_stream] ++ setup ++ body := by
          intro h
          rcases List.mem_append.mp h with h | h
          · rcases List.mem_append.mp h with h | h
            · exact absurd rfl (hq2 _ h)
            · exact absurd rfl (hsetup _ (List.mem_append_left _ h))
          · exact absurd rfl (hbody _ h)
        have hnot2 : Call.sc_camera_get_frame none ∉
            Call.printf Msg.frame_access_failed :: teardown := by
          intro h
          rcases List.mem_cons.mp h with h | h
          · exact Call.noConfusion h
          · exact absurd rfl (hsetup _ (List.mem_append_right _ h))
        obtain ⟨hpre, _, hpost⟩ := (List.append_cons_inj_of_not_mem hnot1 hnot2).mp hshape2
        refine ⟨hpost.symm, ?_, by rw [hrest]⟩
        intro c hc heq
        subst heq
        rw [← hpre] at hc
        exact hnot1 hc
  · rw [heq] at hmem
    exact absurd rfl (hstart _ (ht _ hmem))

/-- C10. In every run of either camera sample, wherever a
`sc_camera_get_frame` returns `NULL`, it is the first one to do so, and all
that follows is the printed failure and the teardown: no further frame is
acquired, processed or given back, and `main` returns 0. -/
theorem null_frame_ends_capture_loop (env : CameraEnv) (pre post : List Call) :
    ((BarcodeScannerCameraSample.main env).trace =
        pre ++ Call.sc_camera_get_frame none :: post →
      post = Call.printf Msg.frame_access_failed :: BarcodeScannerCameraSample.teardown ∧
      (∀ c ∈ pre, c ≠ Call.sc_camera_get_frame none) ∧
      (∀ c ∈ post, isFrameCall c = false) ∧
      (BarcodeScannerCameraSample.main env).outcome = Outcome.exited 0) ∧
    ((MatrixScanCameraSample.main env).trace =
        pre ++ Call.sc_camera_get_frame none :: post →
      post = Call.printf Msg.frame_access_failed :: MatrixScanCameraSample.teardown ∧
      (∀ c ∈ pre, c ≠ Call.sc_camera_get_frame none) ∧
      (∀ c ∈ post, isFrameCall c = false) ∧
      (MatrixScanCameraSample.main env).outcome = Outcome.exited 0) := by
  constructor
  · intro hsplit
    obtain ⟨hpost, hpre, hexit⟩ := cameraStartup_after_null env _
      BarcodeScannerCameraSample.setup _ BarcodeScannerCameraSample.teardown _
      (barcode_scan_shape env) (by decide)
      (barcode_captureLoop_null env.frames) pre post hsplit
    refine ⟨hpost, hpre, ?_, hexit⟩
    rw [hpost]
    decide
  · intro hsplit
    obtain ⟨hpost, hpre, hexit⟩ := cameraStartup_after_null env _
      MatrixScanCameraSample.setup _ MatrixScanCameraSample.teardown _
      (matrix_scan_shape env) (by decide)
      (matrix_captureLoop_null env.frames) pre post hsplit
    refine ⟨hpost, hpre, ?_, hexit⟩
    rw [hpost]
    decide

/-- C10 at the run whose second `sc_camera_get_frame` returns `NULL`: the
calls after it are the printed failure and the teardown. -/
theorem null_frame_ends_capture_loop_witness :
    ∃ pre, (MatrixScanCameraSample.main failedFrameEnv).trace =
        pre ++ Call.sc_camera_get_frame none ::
          Call.printf Msg.frame_access_failed :: MatrixScanCameraSample.teardown ∧
      (MatrixScanCameraSample.main failedFrameEnv).outcome = Outcome.exited 0 := by
  refine ⟨(MatrixScanCameraSample.main failedFrameEnv).trace.take 36, by decide, ?_⟩
  exact ((null_frame_ends_capture_loop failedFrameEnv
    ((MatrixScanCameraSample.main failedFrameEnv).trace.take 36)
    (Call.printf Msg.frame_access_failed :: MatrixScanCameraSample.teardown)).2
    (by decide)).2.2.2

/-! ## C9: the image-processing sample and the failed frame -/

/-- C9, the failing run. On the single image `a.png`, loaded and then refused
by the recognizer, the frame sequence is started once and never ended, yet the
recognition context is released: the sequence is still active when the run
ends with -1. -/
theorem image_sample_failed_frame_not_ended :
    (ImageProcessingSample.main failingImageEnv).trace.count
      Call.sc_recognition_context_start_new_frame_sequence = 1 ∧
    (ImageProcessingSample.main failingImageEnv).trace.count
      Call.sc_recognition_context_end_frame_sequence = 0 ∧
    Call.sc_recognition_context_release ∈ (ImageProcessingSample.main failingImageEnv).trace ∧
    seqRun false (ImageProcessingSample.main failingImageEnv).trace = some true ∧
    (ImageProcessingSample.main failingImageEnv).outcome = Outcome.exited (-1) := by
  decide

/-! ## C11: recognizer errors do not end the capture loop -/

theorem barcode_captureLoop_cons (g : FrameInput) (l : List FrameInput) (image_data : Nat)
    (hg : g.process_frames = true) (hd : g.image_data = some image_data) :
    BarcodeScannerCameraSample.captureLoop (g :: l) =
      ([Call.sc_camera_get_frame (some image_data),
        Call.sc_recognition_context_process_frame image_data] ++
       (if g.status = ScContextStatusFlag.SC_RECOGNITION_CONTEXT_STATUS_SUCCESS then []
        else [Call.sc_context_status_flag_get_message,
              Call.printf (Msg.processing_frame_failed g.status)]) ++
       [Call.sc_barcode_scanner_session_get_newly_recognized_codes,
        Call.sc_barcode_array_get_size] ++
       ((List.range g.code_count).map (fun i =>
         [Call.sc_barcode_array_get_item_at i, Call.sc_barcode_get_data,
          Call.printf Msg.barcode_found])).flatten ++
       [Call.sc_camera_enqueue_frame_data image_data, Call.sc_barcode_array_release] ++
       (BarcodeScannerCameraSample.captureLoop l).1,
       (BarcodeScannerCameraSample.captureLoop l).2) := by
  rw [BarcodeScannerCameraSample.captureLoop]
  simp only [hg, hd, if_true]

theorem matrix_captureLoop_cons (g : FrameInput) (l : List FrameInput) (image_data : Nat)
    (hg : g.process_frames = true) (hd : g.image_data = some image_data) :
    MatrixScanCameraSample.captureLoop (g :: l) =
      ([Call.sc_camera_get_frame (some image_data),
        Call.sc_recognition_context_process_frame image_data] ++
       (if g.status = ScContextStatusFlag.SC_RECOGNITION_CONTEXT_STATUS_SUCCESS then []
        else [Call.sc_context_status_flag_get_message,
              Call.printf (Msg.processing_frame_failed g.status)]) ++
       [Call.sc_camera_enqueue_frame_data image_data] ++
       (MatrixScanCameraSample.captureLoop l).1,
       (MatrixScanCameraSample.captureLoop l).2) := by
  rw [MatrixScanCameraSample.captureLoop]
  simp only [hg, hd, if_true]

theorem barcode_captureLoop_append (pre l : List FrameInput)
    (hpre : ∀ g ∈ pre, g.process_frames = true ∧ g.image_data ≠ none) :
    ∃ before, (BarcodeScannerCameraSample.captureLoop (pre ++ l)).1 =
        before ++ (BarcodeScannerCameraSample.captureLoop l).1 ∧
      (BarcodeScannerCameraSample.captureLoop (pre ++ l)).2 =
        (BarcodeScannerCameraSample.captureLoop l).2 := by
  induction pre with
  | nil => exact ⟨[], rfl, rfl⟩
  | cons g rest ih =>
    obtain ⟨before, h1, h2⟩ := ih (fun x hx => hpre x (List.mem_cons_of_mem _ hx))
    obtain ⟨hg1, hg2⟩ := hpre g (List.mem_cons_self _ _)
    cases hd : g.image_data with
    | none => exact absurd hd hg2
    | some image_data =>
      rw [List.cons_append, barcode_captureLoop_cons g _ image_data hg1 hd]
      dsimp only
      rw [h1, ← List.append_assoc]
      exact ⟨_, rfl, h2⟩

theorem matrix_captureLoop_append (pre l : List FrameInput)
    (hpre : ∀ g ∈ pre, g.process_frames = true ∧ g.image_data ≠ none) :
    ∃ before, (MatrixScanCameraSample.captureLoop (pre ++ l)).1 =
        before ++ (MatrixScanCameraSample.captureLoop l).1 ∧
      (MatrixScanCameraSample.captureLoop (pre ++ l)).2 =
        (MatrixScanCameraSample.captureLoop l).2 := by
  induction pre with
  | nil => exact ⟨[], rfl, rfl⟩
  | cons g rest ih =>
    obtain ⟨before, h1, h2⟩ := ih (fun x hx => hpre x (List.mem_cons_of_mem _ hx))
    obtain ⟨hg1, hg2⟩ := hpre g (List.mem_cons_self _ _)
    cases hd : g.image_data with
    | none => exact absurd hd hg2
    | some image_data =>
      rw [List.cons_append, matrix_captureLoop_cons g _ image_data hg1 hd]
      dsimp only
      rw [h1, ← List.append_assoc]
      exact ⟨_, rfl, h2⟩

/-- C11. In the capture loop of either camera sample, take any frame the loop
reaches (every earlier turn ran and got a frame) whose processing status is not
success. Its turn prints the failure, still gives the frame back to the camera,
and is followed by the loop on the remaining answers, which is left or not as
those answers decide; if the next loop test finds the flag set, the next call
is `sc_camera_get_frame`. No call of the loop ends the frame sequence. -/
theorem recognizer_error_keeps_loop_running (pre rest : List FrameInput) (f : FrameInput)
    (image_data : Nat)
    (hpre : ∀ g ∈ pre, g.process_frames = true ∧ g.image_data ≠ none)
    (hrun : f.process_frames = true) (hdata : f.image_data = some image_data)
    (hfail : f.status ≠ ScContextStatusFlag.SC_RECOGNITION_CONTEXT_STATUS_SUCCESS) :
    (∃ before,
      (BarcodeScannerCameraSample.captureLoop (pre ++ f :: rest)).1 =
        before ++
        ([Call.sc_camera_get_frame (some image_data),
          Call.sc_recognition_context_process_frame image_data,
          Call.sc_context_status_flag_get_message,
          Call.printf (Msg.processing_frame_failed f.status),
          Call.sc_barcode_scanner_session_get_newly_recognized_codes,
          Call.sc_barcode_array_get_size] ++
         ((List.range f.code_count).map (fun i =>
            [Call.sc_barcode_array_get_item_at i, Call.sc_barcode_get_data,
             Call.printf Msg.barcode_found])).flatten ++
         [Call.sc_camera_enqueue_frame_data image_data, Call.sc_barcode_array_release]) ++
        (BarcodeScannerCameraSample.captureLoop rest).1 ∧
      (BarcodeScannerCameraSample.captureLoop (pre ++ f :: rest)).2 =
        (BarcodeScannerCameraSample.captureLoop rest).2) ∧
    (∃ before,
      (MatrixScanCameraSample.captureLoop (pre ++ f :: rest)).1 =
        before ++
        [Call.sc_camera_get_frame (some image_data),
         Call.sc_recognition_context_process_frame image_data,
         Call.sc_context_status_flag_get_message,
         Call.printf (Msg.processing_frame_failed f.status),
         Call.sc_camera_enqueue_frame_data image_data] ++
        (MatrixScanCameraSample.captureLoop rest).1 ∧
      (MatrixScanCameraSample.captureLoop (pre ++ f :: rest)).2 =
        (MatrixScanCameraSample.captureLoop rest).2) ∧
    (∀ g rest2, rest = g :: rest2 → g.process_frames = true →
      (∃ tail, (BarcodeScannerCameraSample.captureLoop rest).1 =
        Call.sc_camera_get_frame g.image_data :: tail) ∧
      (∃ tail, (MatrixScanCameraSample.captureLoop rest).1 =
        Call.sc_camera_get_frame g.image_data :: tail)) ∧
    Call.sc_recognition_context_end_frame_sequence ∉
      (BarcodeScannerCameraSample.captureLoop (pre ++ f :: rest)).1 ∧
    Call.sc_recognition_context_end_frame_sequence ∉
      (MatrixScanCameraSample.captureLoop (pre ++ f :: rest)).1 := by
  refine ⟨?_, ?_, ?_, ?_, ?_⟩
  · obtain ⟨before, h1, h2⟩ := barcode_captureLoop_append pre (f :: rest) hpre
    rw [barcode_captureLoop_cons f rest image_data hrun hdata] at h1 h2
    refine ⟨before, ?_, h2⟩
    rw [h1]
    simp only [if_neg hfail, List.append_assoc, List.cons_append, List.nil_append]
  · obtain ⟨before, h1, h2⟩ := matrix_captureLoop_append pre (f :: rest) hpre
    rw [matrix_captureLoop_cons f rest image_data hrun hdata] at h1 h2
    refine ⟨before, ?_, h2⟩
    rw [h1]
    simp only [if_neg hfail, List.append_assoc, List.cons_append, List.nil_append]
  · intro g rest2 hrest hg
    subst hrest
    constructor
    · cases hd : g.image_data with
      | none =>
        refine ⟨[Call.printf Msg.frame_access_failed], ?_⟩
        rw [BarcodeScannerCameraSample.captureLoop]
        simp only [hg, hd, if_true]
      | some d =>
        rw [barcode_captureLoop_cons g rest2 d hg hd]
        exact ⟨_, rfl⟩
    · cases hd : g.image_data with
      | none =>
        refine ⟨[Call.printf Msg.frame_access_failed], ?_⟩
        rw [MatrixScanCameraSample.captureLoop]
        simp only [hg, hd, if_true]
      | some d =>
        rw [matrix_captureLoop_cons g rest2 d hg hd]
        exact ⟨_, rfl⟩
  · intro hmem
    exact Bool.noConfusion (barcode_captureLoop_calls _ _ hmem)
  · intro hmem
    exact Bool.noConfusion (matrix_captureLoop_calls _ _ hmem)

/-- C11 at a run of three answers: the second frame fails in the recognizer;
it is given back and the loop goes on with the third answer. -/
theorem recognizer_error_keeps_loop_running_witness :
    ∃ before, (MatrixScanCameraSample.captureLoop
      [⟨true, some 7, ScContextStatusFlag.SC_RECOGNITION_CONTEXT_STATUS_SUCCESS, 1⟩,
       ⟨true, some 8, ScContextStatusFlag.failure 3, 0⟩,
       ⟨true, some 9, ScContextStatusFlag.SC_RECOGNITION_CONTEXT_STATUS_SUCCESS, 0⟩]).1 =
      before ++
      [Call.sc_camera_get_frame (some 8),
       Call.sc_recognition_context_process_frame 8,
       Call.sc_context_status_flag_get_message,
       Call.printf (Msg.processing_frame_failed (ScContextStatusFlag.failure 3)),
       Call.sc_camera_enqueue_frame_data 8] ++
      (MatrixScanCameraSample.captureLoop
        [⟨true, some 9, ScContextStatusFlag.SC_RECOGNITION_CONTEXT_STATUS_SUCCESS, 0⟩]).1 := by
  obtain ⟨before, h, _⟩ := (recognizer_error_keeps_loop_running
    [⟨true, some 7, ScContextStatusFlag.SC_RECOGNITION_CONTEXT_STATUS_SUCCESS, 1⟩]
    [⟨true, some 9, ScContextStatusFlag.SC_RECOGNITION_CONTEXT_STATUS_SUCCESS, 0⟩]
    ⟨true, some 8, ScContextStatusFlag.failure 3, 0⟩ 8
    (by decide) rfl rfl (by decide)).2.1
  exact ⟨before, h⟩

/-! ## C15: what `on_appeared` reports -/

/-- C15. For every tracked object, `on_appeared` prints the line with the id,
the symbology name and the data exactly when the barcode of the object is
recognized, and otherwise the line `Object #id appeared.` with the id only; the
id printed is the id of the object in both cases, and the two forms cannot be
confused, since they differ in their first character. -/
theorem on_appeared_reports_payload_iff_recognized
    (sc_symbology_to_string : ScSymbology → List Char) (obj : ScTrackedObject) :
    (obj.barcode.is_recognized = true ↔
      on_appeared sc_symbology_to_string obj =
        "Barcode #".toList ++ Nat.toDigits 10 obj.id ++ ": ".toList ++
          sc_symbology_to_string obj.barcode.symbology ++ [Char.ofNat 32, apostrophe] ++
          obj.barcode.data ++ [apostrophe] ++ " appeared.".toList ++ [newline]) ∧
    (obj.barcode.is_recognized = false ↔
      on_appeared sc_symbology_to_string obj =
        "Object #".toList ++ Nat.toDigits 10 obj.id ++ " appeared.".toList ++ [newline]) ∧
    (obj.barcode.is_recognized = true ↔
      (on_appeared sc_symbology_to_string obj).head? = some (Char.ofNat 66)) ∧
    (obj.barcode.is_recognized = false ↔
      (on_appeared sc_symbology_to_string obj).head? = some (Char.ofNat 79)) := by
  cases hr : obj.barcode.is_recognized
  · refine ⟨?_, ?_, ?_, ?_⟩ <;> simp [on_appeared, hr]
  · refine ⟨?_, ?_, ?_, ?_⟩ <;> simp [on_appeared, hr]

/-! ## C12: submitting a frame while no sequence is started -/

/-- C12. In the controller of the specification, submitting any frame while no
frame sequence is started (state Idle) returns the status
`FRAME_SEQUENCE_NOT_STARTED`, which is not success, whatever the recognizer
would have answered, and leaves the state Idle; so does every further
submission, and so does a submission after a sequence has been ended. -/
theorem submit_frame_not_started {Frame : Type} (not_started : Nat)
    (recognizer : Frame → ScContextStatusFlag) (frame : Frame) (frames : List Frame)
    (state : SequenceState) :
    submit_frame not_started recognizer SequenceState.Idle frame =
      (SequenceState.Idle, ScContextStatusFlag.failure not_started) ∧
    (submit_frame not_started recognizer SequenceState.Idle frame).2 ≠
      ScContextStatusFlag.SC_RECOGNITION_CONTEXT_STATUS_SUCCESS ∧
    submit_frames not_started recognizer SequenceState.Idle frames =
      (SequenceState.Idle, frames.map (fun _ => ScContextStatusFlag.failure not_started)) ∧
    submit_frame not_started recognizer (end_sequence state) frame =
      (SequenceState.Idle, ScContextStatusFlag.failure not_started) := by
  refine ⟨rfl, ?_, ?_, ?_⟩
  · intro h
    exact ScContextStatusFlag.noConfusion h
  · induction frames with
    | nil => rfl
    | cons f rest ih =>
      simp only [submit_frames, submit_frame, ih, List.map_cons]
  · cases state <;> rfl

/-! ## C13: the list of input files -/

theorem push_foldl_files (args : List Arg) (acc : List InputImage)
    (hfiles : ∀ a ∈ args, a.dir_entries = none) :
    args.foldl (fun ret current_arg =>
      match current_arg.dir_entries with
      | some entries =>
        entries.foldl (fun ret d_name =>
          push_if_valid_image (current_arg.text ++ '/' :: d_name) ret) ret
      | none => push_if_valid_image current_arg.text ret) acc =
    ((args.filter (fun a => has_valid_extension a.text)).map
      (fun a => (⟨a.text⟩ : InputImage))).reverse ++ acc := by
  induction args generalizing acc with
  | nil => rfl
  | cons a rest ih =>
    have ha : a.dir_entries = none := hfiles a (List.mem_cons_self _ _)
    have hrest := fun acc2 => ih acc2 (fun x hx => hfiles x (List.mem_cons_of_mem _ hx))
    simp only [List.foldl_cons, ha]
    rw [hrest]
    by_cases hv : has_valid_extension a.text = true
    · simp [push_if_valid_image, hv]
    · simp [push_if_valid_image, hv]

/-- C13. When every argument after `argv[0]` is a plain file, the list
`get_input_files` returns, read from its head, is the reverse of the arguments
with a valid extension, each with its text unchanged; no other argument is in
it. -/
theorem get_input_files_reverse (argv : List Arg)
    (hfiles : ∀ a ∈ argv.drop 1, a.dir_entries = none) :
    get_input_files argv =
      (((argv.drop 1).filter (fun a => has_valid_extension a.text)).map
        (fun a => (⟨a.text⟩ : InputImage))).reverse ∧
    (∀ image ∈ get_input_files argv, has_valid_extension image.file_name = true ∧
      ∃ a ∈ argv.drop 1, a.text = image.file_name) := by
  have h : get_input_files argv =
      (((argv.drop 1).filter (fun a => has_valid_extension a.text)).map
        (fun a => (⟨a.text⟩ : InputImage))).reverse := by
    unfold get_input_files
    exact (push_foldl_files _ _ hfiles).trans (List.append_nil _)
  refine ⟨h, ?_⟩
  intro image himage
  rw [h] at himage
  simp only [List.mem_reverse, List.mem_map, List.mem_filter] at himage
  obtain ⟨a, ⟨ha, hv⟩, rfl⟩ := himage
  exact ⟨hv, a, ha, rfl⟩

/-- C13 at four arguments: `a.png`, `b.txt`, `c.jpg` after the program name give
`c.jpg`, `a.png`. -/
theorem get_input_files_reverse_witness :
    get_input_files [⟨"sample".toList, none⟩, ⟨"a.png".toList, none⟩,
      ⟨"b.txt".toList, none⟩, ⟨"c.jpg".toList, none⟩] =
      [⟨"c.jpg".toList⟩, ⟨"a.png".toList⟩] :=
  ((get_input_files_reverse [⟨"sample".toList, none⟩, ⟨"a.png".toList, none⟩,
      ⟨"b.txt".toList, none⟩, ⟨"c.jpg".toList, none⟩] (by decide)).1).trans (by decide)

/-! ## C20: valid extensions -/

theorem has_valid_extension_go_iff (file_name : List Char) (table : List (List Char)) :
    has_valid_extension.go file_name table = true ↔
      ∃ extension ∈ table, extension <:+ file_name := by
  induction table with
  | nil => simp [has_valid_extension.go]
  | cons extension rest ih =>
    have hsuffix : (file_name.length ≥ extension.length ∧
        file_name.drop (file_name.length - extension.length) = extension) ↔
        extension <:+ file_name := by
      constructor
      · intro h
        exact List.suffix_iff_eq_drop.mpr h.2.symm
      · intro h
        exact ⟨h.length_le, (List.suffix_iff_eq_drop.mp h).symm⟩
    by_cases hc : extension <:+ file_name
    · have hc2 := hsuffix.mpr hc
      simp only [has_valid_extension.go, hc2, and_self, if_true, List.mem_cons, true_iff]
      exact ⟨extension, Or.inl rfl, hc⟩
    · have hc2 : ¬ (file_name.length ≥ extension.length ∧
          file_name.drop (file_name.length - extension.length) = extension) :=
        fun h => hc (hsuffix.mp h)
      simp only [has_valid_extension.go, if_neg hc2, ih, List.mem_cons, exists_eq_or_imp, hc,
        false_or]

/-- C20. A file name has a valid extension exactly when one of `png`, `jpg`,
`jpeg`, `tif`, `bmp` is a suffix of it, letter case included and with no dot
required: `jpg` and `photojpg` are accepted, `a.PNG`, `tiff` and every name
shorter than three characters are rejected. -/
theorem has_valid_extension_iff_suffix (file_name : List Char) :
    (has_valid_extension file_name = true ↔
      ("png".toList <:+ file_name ∨ "jpg".toList <:+ file_name ∨
       "jpeg".toList <:+ file_name ∨ "tif".toList <:+ file_name ∨
       "bmp".toList <:+ file_name)) ∧
    (file_name.length < 3 → has_valid_extension file_name = false) ∧
    has_valid_extension "jpg".toList = true ∧
    has_valid_extension "photojpg".toList = true ∧
    has_valid_extension "a.PNG".toList = false ∧
    has_valid_extension "tiff".toList = false := by
  have h : has_valid_extension file_name = true ↔
      ("png".toList <:+ file_name ∨ "jpg".toList <:+ file_name ∨
       "jpeg".toList <:+ file_name ∨ "tif".toList <:+ file_name ∨
       "bmp".toList <:+ file_name) := by
    unfold has_valid_extension
    rw [has_valid_extension_go_iff]
    simp [ENABLED_FILE_EXTENSIONS]
  refine ⟨h, ?_, by decide, by decide, by decide, by decide⟩
  intro hlen
  cases hv : has_valid_extension file_name with
  | false => rfl
  | true =>
    exfalso
    rcases h.mp hv with hs | hs | hs | hs | hs <;>
    · have := hs.length_le
      simp at this
      omega

/-- C20 at the two-character name `ab`: it is shorter than every extension and
is rejected. -/
theorem has_valid_extension_iff_suffix_witness :
    "ab".toList.length < 3 ∧ has_valid_extension "ab".toList = false :=
  ⟨by decide, (has_valid_extension_iff_suffix "ab".toList).2.1 (by decide)⟩

/-! ## C14: the requested resolution -/

/-- C14. The resolution the camera samples negotiate is the default 1280x720
unless `argc` is 4, in which case it is `atoi(argv[2])` x `atoi(argv[3])`
(converted to `uint32_t`, which leaves values from 0 to 2^32 - 1 as they are);
in particular it is the default when there are no arguments. These are the
values the discrete and the stepwise case test. -/
theorem requested_resolution_default_unless_argc_4 (env : CameraEnv) :
    (env.argc = 4 →
      resolution_width env = toUInt32 env.atoi_argv2 ∧
      resolution_height env = toUInt32 env.atoi_argv3) ∧
    (env.argc ≠ 4 →
      resolution_width env = DEFAULT_RESOLUTION_WIDTH ∧
      resolution_height env = DEFAULT_RESOLUTION_HEIGHT) ∧
    (env.argc = 1 → resolution_width env = 1280 ∧ resolution_height env = 720) ∧
    (∀ i : Int, 0 ≤ i → i < 4294967296 → ((toUInt32 i : Nat) : Int) = i) ∧
    (env.signal_ok = true → env.camera_ok = true →
      env.resm = ScCameraMode.SC_CAMERA_MODE_DISCRETE → env.resolutions ≠ [] →
      supportedAfterSwitch env = some
        (discreteLoop (resolution_width env) (resolution_height env) env.resolutions)) ∧
    (env.signal_ok = true → env.camera_ok = true →
      env.resm = ScCameraMode.SC_CAMERA_MODE_STEPWISE → env.stepwise_ok = true →
      supportedAfterSwitch env =
        (stepwiseCondition env.swres (resolution_width env) (resolution_height env)).value) := by
  refine ⟨?_, ?_, ?_, ?_, ?_, ?_⟩
  · intro h
    simp [resolution_width, resolution_height, h]
  · intro h
    simp [resolution_width, resolution_height, h]
  · intro h
    simp [resolution_width, resolution_height, h, DEFAULT_RESOLUTION_WIDTH,
      DEFAULT_RESOLUTION_HEIGHT]
  · intro i h0 h1
    unfold toUInt32
    rw [Int.emod_eq_of_lt h0 h1]
    exact Int.toNat_of_nonneg h0
  · intro hs hc hm hne
    have hlen : env.resolutions.length ≠ 0 := fun h => hne (List.length_eq_zero.mp h)
    simp [supportedAfterSwitch, hs, hc, resolutionSwitch, hm, discreteBranch, hlen]
  · intro hs hc hm hok
    simp only [supportedAfterSwitch, hs, hc, resolutionSwitch, hm, hok, and_self, if_true]
    cases hv : (stepwiseCondition env.swres (resolution_width env)
      (resolution_height env)).value <;> simp [hv]

/-- C14 at two runs: without arguments the request is 1280x720; started with
a device path, 800 and 600 it is 800x600. -/
theorem requested_resolution_default_unless_argc_4_witness :
    stoppedEnv.argc = 1 ∧ resolution_width stoppedEnv = 1280 ∧
    resolution_height stoppedEnv = 720 ∧
    unsupportedEnv.argc = 4 ∧ resolution_width unsupportedEnv = 800 ∧
    resolution_height unsupportedEnv = 600 :=
  ⟨rfl,
   ((requested_resolution_default_unless_argc_4 stoppedEnv).2.2.1 rfl).1,
   ((requested_resolution_default_unless_argc_4 stoppedEnv).2.2.1 rfl).2,
   rfl,
   ((requested_resolution_default_unless_argc_4 unsupportedEnv).1 rfl).1.trans (by decide),
   ((requested_resolution_default_unless_argc_4 unsupportedEnv).1 rfl).2.trans (by decide)⟩

/-! ## C18: the active symbol counts of CODE128 -/

/-- C18, the run of the code. The array handed to
`sc_symbology_settings_set_active_symbol_counts` holds the 16 counts 4 to 19:
the loop stops before `range_to`, so 20 is not among them. -/
theorem code128_symbol_counts_stop_at_19 :
    sym_count 4 20 = [some 4, some 5, some 6, some 7, some 8, some 9, some 10, some 11,
      some 12, some 13, some 14, some 15, some 16, some 17, some 18, some 19] ∧
    some 20 ∉ sym_count 4 20 ∧
    Call.sc_symbology_settings_set_active_symbol_counts (sym_count 4 20) 16 ∈
      ImageProcessingSample.configure := by
  decide

/-! ## C19: multiples from zero and multiples from the minimum -/

/-- C19. With positive steps, the stepwise condition of the code is true
exactly when the request lies in both ranges and width and height are multiples
of their steps counted from zero; and when both minima are themselves multiples
of their steps, that is the same as the reference rule, which counts the
multiples from the minimum. -/
theorem stepwise_code_refines_spec (swres : ScStepwiseResolution) (w h : Nat)
    (hw : 0 < swres.step_width) (hh : 0 < swres.step_height)
    (hminw : swres.min_width % swres.step_width = 0)
    (hminh : swres.min_height % swres.step_height = 0) :
    ((stepwiseCondition swres w h).value = some true ↔
      swres.min_width ≤ w ∧ w ≤ swres.max_width ∧
      swres.min_height ≤ h ∧ h ≤ swres.max_height ∧
      w % swres.step_width = 0 ∧ h % swres.step_height = 0) ∧
    ((stepwiseCondition swres w h).value = some true ↔ specStepwiseSupported swres w h) ∧
    ((stepwiseCondition swres w h).value = some false ↔ ¬ specStepwiseSupported swres w h) := by
  have hw0 : swres.step_width ≠ 0 := Nat.pos_iff_ne_zero.mp hw
  have hh0 : swres.step_height ≠ 0 := Nat.pos_iff_ne_zero.mp hh
  have hcode : (stepwiseCondition swres w h).value = some true ↔
      swres.min_width ≤ w ∧ w ≤ swres.max_width ∧
      swres.min_height ≤ h ∧ h ≤ swres.max_height ∧
      w % swres.step_width = 0 ∧ h % swres.step_height = 0 := by
    unfold stepwiseCondition
    split_ifs <;> simp_all
  have hdef : (stepwiseCondition swres w h).value = some true ∨
      (stepwiseCondition swres w h).value = some false := by
    unfold stepwiseCondition
    split_ifs <;> simp_all
    exact Decidable.em _
  have hshift : ∀ a m s : Nat, m ≤ a → m % s = 0 → ((a - m) % s = 0 ↔ a % s = 0) := by
    intro a m s hle hm
    have hd : s ∣ m := Nat.dvd_of_mod_eq_zero hm
    constructor
    · intro ha
      have hd2 : s ∣ a - m := Nat.dvd_of_mod_eq_zero ha
      have : s ∣ (a - m) + m := Nat.dvd_add hd2 hd
      rw [Nat.sub_add_cancel hle] at this
      exact Nat.mod_eq_zero_of_dvd this
    · intro ha
      exact Nat.mod_eq_zero_of_dvd (Nat.dvd_sub' (Nat.dvd_of_mod_eq_zero ha) hd)
  have hspec : (stepwiseCondition swres w h).value = some true ↔
      specStepwiseSupported swres w h := by
    rw [hcode]
    unfold specStepwiseSupported
    constructor
    · rintro ⟨h1, h2, h3, h4, h5, h6⟩
      exact ⟨h1, h2, h3, h4, (hshift w _ _ h1 hminw).mpr h5, (hshift h _ _ h3 hminh).mpr h6⟩
    · rintro ⟨h1, h2, h3, h4, h5, h6⟩
      exact ⟨h1, h2, h3, h4, (hshift w _ _ h1 hminw).mp h5, (hshift h _ _ h3 hminh).mp h6⟩
  refine ⟨hcode, hspec, ?_⟩
  rw [← hspec]
  rcases hdef with hd | hd <;> simp [hd]

/-- C19 at a camera with minimum 100, maximum 1000 and step 50 on both axes and
the request 450x200: code and reference rule both say supported. -/
theorem stepwise_code_refines_spec_witness :
    (stepwiseCondition ⟨100, 1000, 50, 100, 1000, 50⟩ 450 200).value = some true ∧
    specStepwiseSupported ⟨100, 1000, 50, 100, 1000, 50⟩ 450 200 :=
  ⟨by decide,
   (stepwise_code_refines_spec ⟨100, 1000, 50, 100, 1000, 50⟩ 450 200
     (by decide) (by decide) (by decide) (by decide)).2.1.mp (by decide)⟩

/-! ## The object tracker of the specification -/

theorem createObjects_ids (now : Nat) (ds : List DetectionEvent) :
    ∀ next_id, (createObjects now next_id ds).map (fun o => o.id) =
      List.range' next_id ds.length := by
  induction ds with
  | nil => intro next_id; rfl
  | cons d rest ih =>
    intro next_id
    simp only [createObjects, List.map_cons, List.length_cons, List.range'_succ, ih]

theorem advanceObject_id (cfg : TrackerConfig) (frame : TrackerFrame) (o o2 : TrackedObject)
    (h : advanceObject cfg frame o = some o2) : o2.id = o.id := by
  unfold advanceObject at h
  split at h
  · simp only [Option.some.injEq] at h
    rw [← h]
  · split at h
    · simp at h
    · simp only [Option.some.injEq] at h
      rw [← h]

theorem advanceObject_ids_sublist (cfg : TrackerConfig) (frame : TrackerFrame)
    (l : List TrackedObject) :
    List.Sublist ((l.filterMap (advanceObject cfg frame)).map (fun o => o.id))
      (l.map (fun o => o.id)) := by
  induction l with
  | nil => exact List.Sublist.slnil
  | cons o rest ih =>
    cases h : advanceObject cfg frame o with
    | none =>
      simp only [List.filterMap_cons, h, List.map_cons]
      exact List.Sublist.cons _ ih
    | some o2 =>
      simp only [List.filterMap_cons, h, List.map_cons, advanceObject_id cfg frame o o2 h]
      exact List.Sublist.cons₂ _ ih

theorem process_wellFormed (cfg : TrackerConfig) (t : ObjectTracker) (frame : TrackerFrame)
    (hwf : t.WellFormed) : (t.process cfg frame).1.WellFormed := by
  unfold ObjectTracker.process
  split
  · obtain ⟨hlt, hnodup⟩ := hwf
    have hsub := advanceObject_ids_sublist cfg frame t.live
    have hnew := createObjects_ids frame.timestamp (unmatchedDetections cfg t frame) t.next_id
    have hold : ∀ i ∈ (t.live.filterMap (advanceObject cfg frame)).map (fun o => o.id),
        i < t.next_id := by
      intro i hi
      have hi2 := hsub.subset hi
      simp only [List.mem_map] at hi2
      obtain ⟨o, ho, rfl⟩ := hi2
      exact hlt o ho
    constructor
    · intro o ho
      simp only [List.mem_append] at ho
      rcases ho with ho | ho
      · have := hold o.id (List.mem_map_of_mem _ ho)
        simp only
        omega
      · have hmem : o.id ∈ List.range' t.next_id (unmatchedDetections cfg t frame).length := by
          rw [← hnew]
          exact List.mem_map_of_mem _ ho
        simp only [List.mem_range'_1] at hmem
        exact hmem.2
    · simp only [List.map_append]
      rw [List.nodup_append]
      refine ⟨hnodup.sublist hsub, ?_, ?_⟩
      · rw [hnew]
        exact List.nodup_range' _ _
      · intro i hi1 hi2
        rw [hnew] at hi2
        simp only [List.mem_range'_1] at hi2
        have := hold i hi1
        omega
  · exact hwf

theorem appearedIds_append (a b : List TrackerEvent) :
    appearedIds (a ++ b) = appearedIds a ++ appearedIds b := by
  simp [appearedIds]

theorem appearedIds_frameEvents (cfg : TrackerConfig) (t : ObjectTracker)
    (frame : TrackerFrame) :
    appearedIds (frameEvents cfg t frame) =
      List.range' t.next_id (unmatchedDetections cfg t frame).length := by
  have h1 : ∀ l : List TrackedObject,
      appearedIds (l.map (fun o => TrackerEvent.Lost o.id)) = [] := by
    intro l
    induction l with
    | nil => rfl
    | cons o rest ih => simp [appearedIds]
  have h2 : ∀ l : List TrackedObject,
      appearedIds (l.map (fun o => TrackerEvent.Appeared o.id o.associated_detection)) =
        l.map (fun o => o.id) := by
    intro l
    induction l with
    | nil => rfl
    | cons o rest ih => simpa [appearedIds] using ih
  have h3 : ∀ l : List TrackedObject,
      appearedIds (l.filterMap (updatedEvent cfg frame)) = [] := by
    intro l
    induction l with
    | nil => rfl
    | cons o rest ih =>
      cases h : updatedEvent cfg frame o with
      | none => simpa [List.filterMap_cons, h] using ih
      | some e =>
        have he : ∃ i q p, e = TrackerEvent.Updated i q p := by
          unfold updatedEvent at h
          split at h
          · simp only [Option.some.injEq] at h
            exact ⟨_, _, _, h.symm⟩
          · simp at h
        obtain ⟨i, q, p, rfl⟩ := he
        simp only [List.filterMap_cons, h]
        simpa [appearedIds] using ih
  have h4 : ∀ l : List TrackedObject,
      appearedIds (l.map (fun o => TrackerEvent.Predicted o.id
        (o.last_known_location.extrapolate o.velocity (frame.timestamp - o.last_match))
        (frame.timestamp - o.last_match))) = [] := by
    intro l
    induction l with
    | nil => rfl
    | cons o rest ih => simp [appearedIds]
  unfold frameEvents
  rw [appearedIds_append, appearedIds_append, appearedIds_append, h1, h2, h3, h4,
    createObjects_ids]
  simp

/-- Where an event of a frame comes from: a Lost or Predicted event belongs to
a live object that no detection matches, an Updated event to a live object, an
Appeared event carries a fresh id. -/
theorem frameEvents_cases (cfg : TrackerConfig) (t : ObjectTracker) (frame : TrackerFrame)
    (e : TrackerEvent) (he : e ∈ frameEvents cfg t frame) :
    (∃ o ∈ t.live, isMatched cfg frame o = false ∧ isExpired cfg frame o = true ∧
      e = TrackerEvent.Lost o.id) ∨
    (e.rank = 1 ∧ t.next_id ≤ e.id ∧
      e.id < t.next_id + (unmatchedDetections cfg t frame).length) ∨
    (∃ o ∈ t.live, e.rank = 2 ∧ e.id = o.id) ∨
    (∃ o ∈ t.live, isMatched cfg frame o = false ∧ isExpired cfg frame o = false ∧
      e.rank = 3 ∧ e.id = o.id) := by
  unfold frameEvents at he
  simp only [List.mem_append, List.mem_map, List.mem_filter, List.mem_filterMap,
    unmatchedObjects, Bool.not_eq_true', Bool.not_eq_eq_eq_not, Bool.not_true] at he
  rcases he with ((he | he) | he) | he
  · obtain ⟨o, ⟨⟨ho, hm⟩, hx⟩, rfl⟩ := he
    exact Or.inl ⟨o, ho, hm, hx, rfl⟩
  · obtain ⟨o, ho, rfl⟩ := he
    right; left
    have hmem : o.id ∈ List.range' t.next_id (unmatchedDetections cfg t frame).length := by
      rw [← createObjects_ids frame.timestamp]
      exact List.mem_map_of_mem _ ho
    simp only [List.mem_range'_1] at hmem
    exact ⟨rfl, hmem.1, hmem.2⟩
  · obtain ⟨o, ho, hu⟩ := he
    right; right; left
    refine ⟨o, ho, ?_⟩
    unfold updatedEvent at hu
    split at hu
    · simp only [Option.some.injEq] at hu
      rw [← hu]
      exact ⟨rfl, rfl⟩
    · simp at hu
  · obtain ⟨o, ⟨⟨ho, hm⟩, hx⟩, rfl⟩ := he
    right; right; right
    exact ⟨o, ho, hm, hx, rfl, rfl⟩

theorem process_next_id (cfg : TrackerConfig) (t : ObjectTracker) (frame : TrackerFrame) :
    t.next_id ≤ (t.process cfg frame).1.next_id ∧
    appearedIds (t.process cfg frame).2 =
      List.range' t.next_id ((t.process cfg frame).1.next_id - t.next_id) := by
  unfold ObjectTracker.process
  split
  · refine ⟨Nat.le_add_right _ _, ?_⟩
    simp only [appearedIds_frameEvents, Nat.add_sub_cancel_left]
  · exact ⟨Nat.le_refl _, by simp [appearedIds]⟩

theorem process_event_ids (cfg : TrackerConfig) (t : ObjectTracker) (frame : TrackerFrame)
    (hwf : t.WellFormed) :
    ∀ e ∈ (t.process cfg frame).2, e.id < (t.process cfg frame).1.next_id := by
  intro e he
  unfold ObjectTracker.process at he ⊢
  split at he
  · rename_i hen
    simp only [hen, if_true]
    rcases frameEvents_cases cfg t frame e he with
      ⟨o, ho, _, _, rfl⟩ | ⟨_, _, h⟩ | ⟨o, ho, _, hid⟩ | ⟨o, ho, _, _, _, hid⟩
    · have := hwf.1 o ho
      simp only [TrackerEvent.id]
      omega
    · exact h
    · have := hwf.1 o ho
      omega
    · have := hwf.1 o ho
      omega
  · simp at he

theorem run_wellFormed (cfg : TrackerConfig) (frames : List TrackerFrame) :
    ∀ t : ObjectTracker, t.WellFormed → (ObjectTracker.run cfg t frames).1.WellFormed := by
  induction frames with
  | nil => intro t h; exact h
  | cons frame rest ih =>
    intro t h
    exact ih _ (process_wellFormed cfg t frame h)

theorem run_next_id (cfg : TrackerConfig) (frames : List TrackerFrame) :
    ∀ t : ObjectTracker, t.next_id ≤ (ObjectTracker.run cfg t frames).1.next_id ∧
      appearedIds (ObjectTracker.run cfg t frames).2 =
        List.range' t.next_id ((ObjectTracker.run cfg t frames).1.next_id - t.next_id) := by
  induction frames with
  | nil =>
    intro t
    exact ⟨Nat.le_refl _, by simp [ObjectTracker.run, appearedIds]⟩
  | cons frame rest ih =>
    intro t
    obtain ⟨h1, h2⟩ := process_next_id cfg t frame
    obtain ⟨h3, h4⟩ := ih (t.process cfg frame).1
    refine ⟨Nat.le_trans h1 h3, ?_⟩
    simp only [ObjectTracker.run, appearedIds_append, h2, h4]
    have hsplit : (ObjectTracker.run cfg (t.process cfg frame).1 rest).1.next_id - t.next_id =
        ((ObjectTracker.run cfg (t.process cfg frame).1 rest).1.next_id -
          (t.process cfg frame).1.next_id) +
        ((t.process cfg frame).1.next_id - t.next_id) := by omega
    have hstart : t.next_id + ((t.process cfg frame).1.next_id - t.next_id) =
        (t.process cfg frame).1.next_id := by omega
    rw [hsplit, ← List.range'_append_1, hstart]

theorem run_event_ids (cfg : TrackerConfig) (frames : List TrackerFrame) :
    ∀ t : ObjectTracker, t.WellFormed →
      ∀ e ∈ (ObjectTracker.run cfg t frames).2,
        e.id < (ObjectTracker.run cfg t frames).1.next_id := by
  induction frames with
  | nil => intro t _ e he; simp [ObjectTracker.run] at he
  | cons frame rest ih =>
    intro t hwf e he
    simp only [ObjectTracker.run, List.mem_append] at he ⊢
    rcases he with he | he
    · have h1 := process_event_ids cfg t frame hwf e he
      have h2 := (run_next_id cfg rest (t.process cfg frame).1).1
      omega
    · exact ih _ (process_wellFormed cfg t frame hwf) e he

theorem rank_facts (e : TrackerEvent) :
    (e.isLost = true ↔ e.rank = 0) ∧ (e.isAppeared = true ↔ e.rank = 1) ∧
    (e.isPredicted = true ↔ e.rank = 3) := by
  cases e <;> simp [TrackerEvent.isLost, TrackerEvent.isAppeared, TrackerEvent.isPredicted,
    TrackerEvent.rank]

theorem pairwise_rank_const (l : List TrackerEvent) (r : Nat) (h : ∀ e ∈ l, e.rank = r) :
    l.Pairwise (fun e1 e2 => e1.rank ≤ e2.rank) := by
  apply List.pairwise_of_forall_mem_list
  intro a ha b hb
  rw [h a ha, h b hb]

theorem pairwise_rank_append (l1 l2 : List TrackerEvent) (r : Nat)
    (h1 : l1.Pairwise (fun e1 e2 => e1.rank ≤ e2.rank))
    (h2 : l2.Pairwise (fun e1 e2 => e1.rank ≤ e2.rank))
    (hl1 : ∀ e ∈ l1, e.rank ≤ r) (hl2 : ∀ e ∈ l2, r ≤ e.rank) :
    (l1 ++ l2).Pairwise (fun e1 e2 => e1.rank ≤ e2.rank) := by
  rw [List.pairwise_append]
  exact ⟨h1, h2, fun a ha b hb => Nat.le_trans (hl1 a ha) (hl2 b hb)⟩

theorem frameEvents_sorted (cfg : TrackerConfig) (t : ObjectTracker) (frame : TrackerFrame) :
    (frameEvents cfg t frame).Pairwise (fun e1 e2 => e1.rank ≤ e2.rank) := by
  have hA : ∀ e ∈ ((unmatchedObjects cfg t frame).filter (isExpired cfg frame)).map
      (fun o => TrackerEvent.Lost o.id), e.rank = 0 := by
    intro e he
    simp only [List.mem_map] at he
    obtain ⟨o, _, rfl⟩ := he
    rfl
  have hB : ∀ e ∈ (createObjects frame.timestamp t.next_id
      (unmatchedDetections cfg t frame)).map
      (fun o => TrackerEvent.Appeared o.id o.associated_detection), e.rank = 1 := by
    intro e he
    simp only [List.mem_map] at he
    obtain ⟨o, _, rfl⟩ := he
    rfl
  have hC : ∀ e ∈ t.live.filterMap (updatedEvent cfg frame), e.rank = 2 := by
    intro e he
    simp only [List.mem_filterMap] at he
    obtain ⟨o, _, hu⟩ := he
    unfold updatedEvent at hu
    split at hu
    · simp only [Option.some.injEq] at hu
      rw [← hu]
      rfl
    · simp at hu
  have hD : ∀ e ∈ ((unmatchedObjects cfg t frame).filter
      (fun o => !isExpired cfg frame o)).map
      (fun o => TrackerEvent.Predicted o.id
        (o.last_known_location.extrapolate o.velocity (frame.timestamp - o.last_match))
        (frame.timestamp - o.last_match)), e.rank = 3 := by
    intro e he
    simp only [List.mem_map] at he
    obtain ⟨o, _, rfl⟩ := he
    rfl
  unfold frameEvents
  refine pairwise_rank_append _ _ 2
    (pairwise_rank_append _ _ 1
      (pairwise_rank_append _ _ 0 (pairwise_rank_const _ 0 hA) (pairwise_rank_const _ 1 hB)
        (fun e he => Nat.le_of_eq (hA e he)) (fun e he => by rw [hB e he]; decide))
      (pairwise_rank_const _ 2 hC) ?_ (fun e he => by rw [hC e he]; decide))
    (pairwise_rank_const _ 3 hD) ?_ (fun e he => by rw [hD e he]; decide)
  · intro e he
    rcases List.mem_append.mp he with he | he
    · rw [hA e he]; decide
    · rw [hB e he]
  · intro e he
    rcases List.mem_append.mp he with he | he
    · rcases List.mem_append.mp he with he | he
      · rw [hA e he]; decide
      · rw [hB e he]; decide
    · rw [hC e he]

/-- C16. In the tracker of the specification, within one frame every Lost
event comes before every Appeared event, and both come before every Predicted
event. The Lost events are those of the live objects that are unmatched and
expire in this frame, the Appeared events carry the fresh ids of this frame,
the Predicted events are those of the live objects that are unmatched and do
not expire. In the scenario (object A expiring, new detection B) the events
are Lost(A), Appeared(B). -/
theorem tracker_event_order (cfg : TrackerConfig) (t : ObjectTracker) (frame : TrackerFrame) :
    (t.process cfg frame).2.Pairwise (fun e1 e2 =>
      ¬ (e1.isAppeared = true ∧ e2.isLost = true) ∧
      ¬ (e1.isPredicted = true ∧ (e2.isLost = true ∨ e2.isAppeared = true))) ∧
    (∀ e ∈ (t.process cfg frame).2, e.isLost = true →
      ∃ o ∈ t.live, o.id = e.id ∧ isMatched cfg frame o = false ∧
        isExpired cfg frame o = true) ∧
    (∀ e ∈ (t.process cfg frame).2, e.isAppeared = true →
      t.next_id ≤ e.id ∧ e.id < (t.process cfg frame).1.next_id) ∧
    (∀ e ∈ (t.process cfg frame).2, e.isPredicted = true →
      ∃ o ∈ t.live, o.id = e.id ∧ isMatched cfg frame o = false ∧
        isExpired cfg frame o = false) ∧
    (t.enabled = true → ∀ o ∈ t.live, isMatched cfg frame o = false →
      if isExpired cfg frame o = true then TrackerEvent.Lost o.id ∈ (t.process cfg frame).2
      else TrackerEvent.Predicted o.id
        (o.last_known_location.extrapolate o.velocity (frame.timestamp - o.last_match))
        (frame.timestamp - o.last_match) ∈ (t.process cfg frame).2) ∧
    (scenarioTracker.process scenarioConfig scenarioFrame).2 =
      [TrackerEvent.Lost 0, TrackerEvent.Appeared 1 (some "B".toList)] := by
  have hev : (t.process cfg frame).2 = [] ∨
      (t.enabled = true ∧ (t.process cfg frame).2 = frameEvents cfg t frame ∧
        (t.process cfg frame).1.next_id =
          t.next_id + (unmatchedDetections cfg t frame).length) := by
    unfold ObjectTracker.process
    cases t.enabled <;> simp
  refine ⟨?_, ?_, ?_, ?_, ?_, by decide⟩
  · rcases hev with h | ⟨_, h, _⟩
    · rw [h]
      exact List.Pairwise.nil
    · rw [h]
      refine (frameEvents_sorted cfg t frame).imp ?_
      intro a b hab
      have ha := rank_facts a
      have hb := rank_facts b
      constructor
      · rintro ⟨h1, h2⟩
        have := ha.2.1.mp h1
        have := hb.1.mp h2
        omega
      · rintro ⟨h1, h2 | h2⟩
        · have := ha.2.2.mp h1
          have := hb.1.mp h2
          omega
        · have := ha.2.2.mp h1
          have := hb.2.1.mp h2
          omega
  · intro e he hl
    rcases hev with h | ⟨_, h, _⟩
    · rw [h] at he
      simp at he
    · rw [h] at he
      have hr := (rank_facts e).1.mp hl
      rcases frameEvents_cases cfg t frame e he with
        ⟨o, ho, hm, hx, rfl⟩ | ⟨h1, _⟩ | ⟨o, _, h1, _⟩ | ⟨o, _, _, _, h1, _⟩
      · exact ⟨o, ho, rfl, hm, hx⟩
      · omega
      · omega
      · omega
  · intro e he hl
    rcases hev with h | ⟨_, h, hn⟩
    · rw [h] at he
      simp at he
    · rw [h] at he
      rw [hn]
      have hr := (rank_facts e).2.1.mp hl
      rcases frameEvents_cases cfg t frame e he with
        ⟨o, ho, hm, hx, rfl⟩ | ⟨_, h1, h2⟩ | ⟨o, _, h1, _⟩ | ⟨o, _, _, _, h1, _⟩
      · simp [TrackerEvent.rank] at hr
      · exact ⟨h1, h2⟩
      · omega
      · omega
  · intro e he hl
    rcases hev with h | ⟨_, h, _⟩
    · rw [h] at he
      simp at he
    · rw [h] at he
      have hr := (rank_facts e).2.2.mp hl
      rcases frameEvents_cases cfg t frame e he with
        ⟨o, ho, hm, hx, rfl⟩ | ⟨h1, _⟩ | ⟨o, _, h1, _⟩ | ⟨o, ho, hm, hx, _, hid⟩
      · simp [TrackerEvent.rank] at hr
      · omega
      · omega
      · exact ⟨o, ho, hid.symm, hm, hx⟩
  · intro hen o ho hm
    have h : (t.process cfg frame).2 = frameEvents cfg t frame := by
      unfold ObjectTracker.process
      simp [hen]
    rw [h]
    unfold frameEvents
    by_cases hx : isExpired cfg frame o = true
    · simp only [hx, if_true, List.mem_append, List.mem_map, List.mem_filter, unmatchedObjects]
      left; left; left
      exact ⟨o, ⟨⟨ho, by simp [hm]⟩, hx⟩, rfl⟩
    · simp only [hx, if_false, List.mem_append, List.mem_map, List.mem_filter,
        unmatchedObjects]
      right
      exact ⟨o, ⟨⟨ho, by simp [hm]⟩, by simp [hx]⟩, rfl⟩

/-- C16 at the scenario: the Lost event of the frame belongs to object A, which
is live, unmatched and past the horizon. -/
theorem tracker_event_order_witness :
    ∃ o ∈ scenarioTracker.live, o.id = 0 ∧
      isMatched scenarioConfig scenarioFrame o = false ∧
      isExpired scenarioConfig scenarioFrame o = true :=
  (tracker_event_order scenarioConfig scenarioTracker scenarioFrame).2.1
    (TrackerEvent.Lost 0) (by decide) rfl

/-! ## C17: the life of a tracked object -/

theorem process_matched_quiet (cfg : TrackerConfig) (t : ObjectTracker) (frame : TrackerFrame)
    (id : Nat) (hwf : t.WellFormed)
    (hm : (!t.live.any (fun o => decide (o.id = id)) || t.matchedIn cfg frame id) = true) :
    ∀ e ∈ (t.process cfg frame).2, e.id = id →
      e.isPredicted = false ∧ e.isLost = false := by
  intro e he hid
  have hkey : ∀ o ∈ t.live, o.id = id → isMatched cfg frame o = true := by
    intro o ho hoid
    have hlive : t.live.any (fun o => decide (o.id = id)) = true := by
      simp only [List.any_eq_true, decide_eq_true_eq]
      exact ⟨o, ho, hoid⟩
    rw [hlive] at hm
    simp only [Bool.not_true, Bool.false_or, ObjectTracker.matchedIn, List.any_eq_true,
      Bool.and_eq_true, decide_eq_true_eq] at hm
    obtain ⟨o2, ho2, hid2, hm2⟩ := hm
    have heq : o2 = o := List.inj_on_of_nodup_map hwf.2 ho2 ho (hid2.trans hoid.symm)
    rw [← heq]
    exact hm2
  unfold ObjectTracker.process at he
  split at he
  · have hr := rank_facts e
    rcases frameEvents_cases cfg t frame e he with
      ⟨o, ho, hmo, _, rfl⟩ | ⟨h1, _⟩ | ⟨o, _, h1, _⟩ | ⟨o, ho, hmo, _, _, hoid⟩
    · have := hkey o ho hid
      rw [hmo] at this
      exact Bool.noConfusion this
    · constructor
      · cases hp : e.isPredicted
        · rfl
        · have := hr.2.2.mp hp
          omega
      · cases hp : e.isLost
        · rfl
        · have := hr.1.mp hp
          omega
    · constructor
      · cases hp : e.isPredicted
        · rfl
        · have := hr.2.2.mp hp
          omega
      · cases hp : e.isLost
        · rfl
        · have := hr.1.mp hp
          omega
    · have := hkey o ho (hoid.symm.trans hid)
      rw [hmo] at this
      exact Bool.noConfusion this
  · simp at he

theorem run_matched_quiet (cfg : TrackerConfig) (id : Nat) (frames : List TrackerFrame) :
    ∀ t : ObjectTracker, t.WellFormed →
      ObjectTracker.matchedThroughout cfg id t frames = true →
      ∀ e ∈ (ObjectTracker.run cfg t frames).2, e.id = id →
        e.isPredicted = false ∧ e.isLost = false := by
  induction frames with
  | nil => intro t _ _ e he; simp [ObjectTracker.run] at he
  | cons frame rest ih =>
    intro t hwf hm e he hid
    simp only [ObjectTracker.matchedThroughout, Bool.and_eq_true] at hm
    simp only [ObjectTracker.run, List.mem_append] at he
    rcases he with he | he
    · exact process_matched_quiet cfg t frame id hwf hm.1 e he hid
    · exact ih _ (process_wellFormed cfg t frame hwf) hm.2 e he hid

theorem start_wellFormed : ObjectTracker.start.WellFormed := by
  constructor
  · intro o ho
    simp [ObjectTracker.start] at ho
  · simp [ObjectTracker.start]

/-- C17. In the tracker of the specification, over any sequence of frames from
the start of a session: the ids of the Appeared events are 0, 1, 2, ... up to
the ids handed out, each once, so every object an event is about and every
object in the live table has exactly one Appeared event; and an object that is
matched in every frame in which it is live gets no Predicted and no Lost
event. -/
theorem tracker_lifecycle (cfg : TrackerConfig) (frames : List TrackerFrame) (id : Nat) :
    appearedIds (ObjectTracker.run cfg ObjectTracker.start frames).2 =
      List.range (ObjectTracker.run cfg ObjectTracker.start frames).1.next_id ∧
    (∀ e ∈ (ObjectTracker.run cfg ObjectTracker.start frames).2,
      (appearedIds (ObjectTracker.run cfg ObjectTracker.start frames).2).count e.id = 1) ∧
    (∀ o ∈ (ObjectTracker.run cfg ObjectTracker.start frames).1.live,
      (appearedIds (ObjectTracker.run cfg ObjectTracker.start frames).2).count o.id = 1) ∧
    (ObjectTracker.matchedThroughout cfg id ObjectTracker.start frames = true →
      ∀ e ∈ (ObjectTracker.run cfg ObjectTracker.start frames).2, e.id = id →
        e.isPredicted = false ∧ e.isLost = false) := by
  have hids : appearedIds (ObjectTracker.run cfg ObjectTracker.start frames).2 =
      List.range (ObjectTracker.run cfg ObjectTracker.start frames).1.next_id := by
    have h := (run_next_id cfg frames ObjectTracker.start).2
    rw [h, List.range_eq_range']
    simp [ObjectTracker.start]
  have hcount : ∀ i, i < (ObjectTracker.run cfg ObjectTracker.start frames).1.next_id →
      (appearedIds (ObjectTracker.run cfg ObjectTracker.start frames).2).count i = 1 := by
    intro i hi
    rw [hids]
    exact List.count_eq_one_of_mem (List.nodup_range _) (List.mem_range.mpr hi)
  refine ⟨hids, ?_, ?_, ?_⟩
  · intro e he
    exact hcount _ (run_event_ids cfg frames _ start_wellFormed e he)
  · intro o ho
    exact hcount _ ((run_wellFormed cfg frames _ start_wellFormed).1 o ho)
  · intro hm
    exact run_matched_quiet cfg id frames _ start_wellFormed hm

/-- C17 at three frames in which one barcode is detected at the same place:
object 0 is matched throughout, appears once, and is never predicted or lost. -/
theorem tracker_lifecycle_witness :
    ObjectTracker.matchedThroughout scenarioConfig 0 ObjectTracker.start steadyFrames = true ∧
    appearedIds (ObjectTracker.run scenarioConfig ObjectTracker.start steadyFrames).2 = [0] ∧
    ∀ e ∈ (ObjectTracker.run scenarioConfig ObjectTracker.start steadyFrames).2, e.id = 0 →
      e.isPredicted = false ∧ e.isLost = false :=
  ⟨by decide,
   (tracker_lifecycle scenarioConfig steadyFrames 0).1.trans (by decide),
   (tracker_lifecycle scenarioConfig steadyFrames 0).2.2.2 (by decide)⟩

/-! ## Short-circuit evaluation of the stepwise condition -/

/-- C21. The stepwise condition is evaluated left to right with short-circuit.
(1) For every table `swres`, zero steps included, a request outside the width
range or outside the height range gives the value false and no `%` is
evaluated; the `switch` of a camera in stepwise mode then falls through with
`supported` false.
(2) At most two `%` are evaluated: the first, when there is one, is
`width % step_width`, the second is `height % step_height`.
(3) `height % step_height` is evaluated exactly when all four range conditions
hold, `step_width` is not zero and `width % step_width = 0`. -/
theorem stepwise_short_circuit (swres : ScStepwiseResolution) (w h : Nat) :
    (¬ (swres.min_width ≤ w ∧ w ≤ swres.max_width ∧
        swres.min_height ≤ h ∧ h ≤ swres.max_height) →
      stepwiseCondition swres w h = ⟨[], some false⟩ ∧
      ∀ env : CameraEnv, env.resm = ScCameraMode.SC_CAMERA_MODE_STEPWISE →
        env.stepwise_ok = true → env.swres = swres →
        resolution_width env = w → resolution_height env = h →
        (resolutionSwitch env).2 = SwitchEnd.fell_through false) ∧
    ((stepwiseCondition swres w h).mods = [] ∨
     (stepwiseCondition swres w h).mods = [(w, swres.step_width)] ∨
     (stepwiseCondition swres w h).mods =
       [(w, swres.step_width), (h, swres.step_height)]) ∧
    ((stepwiseCondition swres w h).mods.length = 2 ↔
      (swres.min_width ≤ w ∧ w ≤ swres.max_width ∧
       swres.min_height ≤ h ∧ h ≤ swres.max_height ∧
       swres.step_width ≠ 0 ∧ w % swres.step_width = 0)) := by
  refine ⟨fun hout => ?_, ?_, ?_⟩
  · have hc : stepwiseCondition swres w h = ⟨[], some false⟩ := by
      unfold stepwiseCondition
      split_ifs <;> simp_all
    refine ⟨hc, ?_⟩
    intro env hres hok hsw hw hh
    unfold resolutionSwitch
    simp [hres, hok, hsw, hw, hh, hc]
  · unfold stepwiseCondition
    split_ifs <;> simp_all
  · unfold stepwiseCondition
    split_ifs <;> simp_all

theorem stepwise_short_circuit_witness :
    ¬ (zeroStepwise.min_width ≤ 2000 ∧ 2000 ≤ zeroStepwise.max_width ∧
       zeroStepwise.min_height ≤ 200 ∧ 200 ≤ zeroStepwise.max_height) ∧
    stepwiseCondition zeroStepwise 2000 200 = ⟨[], some false⟩ ∧
    (resolutionSwitch outOfRangeZeroStepEnv).2 = SwitchEnd.fell_through false ∧
    (stepwiseCondition scenarioStepwise 450 200).mods.length = 2 :=
  ⟨by decide,
   ((stepwise_short_circuit zeroStepwise 2000 200).1 (by decide)).1,
   ((stepwise_short_circuit zeroStepwise 2000 200).1 (by decide)).2
     outOfRangeZeroStepEnv rfl rfl rfl (by decide) (by decide),
   (stepwise_short_circuit scenarioStepwise 450 200).2.2.2 (by decide)⟩

end Scandit
